import Mathlib

/-!
# Smart watering controller (ESP32 control node)

A shallow embedding of the scheduling, remote-override and valve-actuation
engine of `Program Microcontroler/Control node/prokon/src/main.cpp`.

* Global variables of the firmware are the fields of `State`.
* `int` is the 32-bit two's complement integer of the ESP32; it is an `Int`
  and arithmetic that can leave the range is wrapped with `toInt32`.
  `unsigned long` is 32 bits wide; it is a `Nat` and arithmetic on it is
  taken modulo `2 ^ 32`.
* Readings of the environment (`millis()`, `rtc.now()`, the HTTP answers)
  are explicit arguments of the function that performs the reading.
* Effects on hardware and on the serial line that the specification talks
  about are appended to `State.trace`.
-/

namespace SmartWatering

/-! ## Machine integers -/

/-- Conversion of an integer to `unsigned long` (32 bits). -/
def toUInt32 (x : Int) : Nat := (x % 4294967296).toNat

/-- Wrap of an integer result into the range of `int` (32 bits, two's complement). -/
def toInt32 (x : Int) : Int := (x + 2147483648) % 4294967296 - 2147483648

/-- Subtraction of two `unsigned long` values. -/
def usub (a b : Nat) : Nat := (a % 4294967296 + (4294967296 - b % 4294967296)) % 4294967296

/-- Multiplication of two `unsigned long` values. -/
def umul (a b : Nat) : Nat := (a * b) % 4294967296

/-! ## C strings -/

/-- A C string: the bytes before the terminating NUL (`char` is unsigned on the target). -/
abbrev CStr := List Nat

/-- Bytes of an ASCII literal. -/
def cstr (s : String) : CStr := s.toList.map Char.toNat

/-- The byte `s[i]`; reading the terminator gives 0. -/
def CStr.at (s : CStr) (i : Nat) : Int := ((s.getD i 0 : Nat) : Int)

/-! ## Arrays of three elements -/

/-- The C array `T name[3]`. -/
structure Arr3 (α : Type) where
  a0 : α
  a1 : α
  a2 : α
deriving DecidableEq, Repr

/-- Read `a[i]`. -/
def Arr3.get {α : Type} (a : Arr3 α) (i : Fin 3) : α :=
  match i with
  | ⟨0, _⟩ => a.a0
  | ⟨1, _⟩ => a.a1
  | ⟨_ + 2, _⟩ => a.a2

/-- Write `a[i] = v`. -/
def Arr3.set {α : Type} (a : Arr3 α) (i : Fin 3) (v : α) : Arr3 α :=
  match i with
  | ⟨0, _⟩ => { a with a0 := v }
  | ⟨1, _⟩ => { a with a1 := v }
  | ⟨_ + 2, _⟩ => { a with a2 := v }

/-! ## Data model -/

/-- The struct `Schedule`. -/
structure Schedule where
  hour : Int
  minute : Int
  enabled : Bool
deriving DecidableEq, Repr

/-- The struct `Config`, the image kept in EEPROM. -/
structure Config where
  schedules : Arr3 Schedule
  duration : Int
  wateringCount : Int
  magicNumber : Int
deriving DecidableEq, Repr

/-- The constant `MAGIC_NUMBER`. -/
def MAGIC_NUMBER : Int := 54321

/-- The pin `RELAY_PIN`. -/
def RELAY_PIN : Nat := 5

/-- The pin `LED_PIN`. -/
def LED_PIN : Nat := 2

/-- A reading of `rtc.now()` as far as the engine looks at it. -/
structure DateTime where
  hour : Nat
  minute : Nat
  second : Nat
deriving DecidableEq, Repr

/-- Effects recorded in program order. -/
inductive Event where
  | digitalWrite (pin : Nat) (level : Bool)
  | eepromCommit (image : Config)
  | valveClosedAfter (seconds : Nat)
  | scheduleFired (slot : Fin 3)
deriving DecidableEq, Repr

/-- The global variables of the firmware, the two output pins, the EEPROM image
and the recorded effects. -/
structure State where
  config : Config
  eeprom : Config
  valveOpen : Bool
  isWatering : Bool
  manualMode : Bool
  valveOpenTime : Nat
  lastScheduleCheck : Arr3 Bool
  relayPin : Bool
  ledPin : Bool
  trace : List Event
deriving DecidableEq, Repr

/-- The ValveSession of the specification: the four session variables. -/
structure ValveSession where
  valveOpen : Bool
  isWatering : Bool
  manualMode : Bool
  valveOpenTime : Nat
deriving DecidableEq, Repr

/-- Projection of the state on its session variables. -/
def State.session (s : State) : ValveSession :=
  { valveOpen := s.valveOpen, isWatering := s.isWatering,
    manualMode := s.manualMode, valveOpenTime := s.valveOpenTime }

/-! ## Config store -/

/-- The function `saveConfig`: `EEPROM.put(0, config); EEPROM.commit()`. -/
def saveConfig (s : State) : State :=
  { s with eeprom := s.config, trace := s.trace ++ [Event.eepromCommit s.config] }

/-- Values assigned by `loadConfig` when the marker does not match. -/
def defaultConfig : Config :=
  { schedules := { a0 := { hour := 6, minute := 0, enabled := true },
                   a1 := { hour := 18, minute := 0, enabled := true },
                   a2 := { hour := 12, minute := 0, enabled := false } },
    duration := 30,
    wateringCount := 0,
    magicNumber := MAGIC_NUMBER }

/-- The function `loadConfig`: read the stored struct, and replace it field by
field and save when its marker is not `MAGIC_NUMBER`. -/
def loadConfig (s : State) : State :=
  let s1 : State := { s with config := s.eeprom }
  if s1.config.magicNumber ≠ MAGIC_NUMBER then
    let c0 := s1.config
    let c1 : Config := { c0 with schedules := c0.schedules.set 0 { hour := 6, minute := 0, enabled := true } }
    let c2 : Config := { c1 with schedules := c1.schedules.set 1 { hour := 18, minute := 0, enabled := true } }
    let c3 : Config := { c2 with schedules := c2.schedules.set 2 { hour := 12, minute := 0, enabled := false } }
    let c4 : Config := { c3 with duration := 30 }
    let c5 : Config := { c4 with wateringCount := 0 }
    let c6 : Config := { c5 with magicNumber := MAGIC_NUMBER }
    saveConfig { s1 with config := c6 }
  else
    s1

/-! ## Valve actuator -/

/-- The function `openValve`; `millis` is the reading of `millis()`. -/
def openValve (s : State) (millis : Nat) : State :=
  if !s.valveOpen then
    { s with
      relayPin := true,
      ledPin := true,
      valveOpen := true,
      isWatering := true,
      valveOpenTime := millis,
      trace := s.trace ++ [Event.digitalWrite RELAY_PIN true, Event.digitalWrite LED_PIN true] }
  else
    s

/-- The function `closeValve`; `millis` is the reading of `millis()` used for the
printed session length. -/
def closeValve (s : State) (millis : Nat) : State :=
  if s.valveOpen then
    { s with
      relayPin := false,
      ledPin := false,
      valveOpen := false,
      isWatering := false,
      manualMode := false,
      trace := s.trace ++ [Event.digitalWrite RELAY_PIN false, Event.digitalWrite LED_PIN false,
                           Event.valveClosedAfter (usub millis s.valveOpenTime / 1000)] }
  else
    s

/-! ## Schedule matcher -/

/-- Body of the `for` loop of `checkSchedule` for slot `i`. -/
def checkScheduleSlot (now : DateTime) (millis : Nat) (s : State) (i : Fin 3) : State :=
  if !(s.config.schedules.get i).enabled then
    s
  else
    let matchSchedule : Bool :=
      decide ((now.hour : Int) = (s.config.schedules.get i).hour) &&
      decide ((now.minute : Int) = (s.config.schedules.get i).minute) &&
      decide (now.second = 0)
    let s1 : State :=
      if matchSchedule && !(s.lastScheduleCheck.get i) then
        let s2 := openValve s millis
        let s3 : State :=
          { s2 with config := { s2.config with wateringCount := toInt32 (s2.config.wateringCount + 1) } }
        let s4 := saveConfig s3
        { s4 with trace := s4.trace ++ [Event.scheduleFired i] }
      else
        s
    { s1 with lastScheduleCheck := s1.lastScheduleCheck.set i matchSchedule }

/-- The loop `for (int i = 0; i < 3; i++)` of `checkSchedule`. -/
def checkScheduleLoop (s : State) (now : DateTime) (millis : Nat) : State :=
  checkScheduleSlot now millis
    (checkScheduleSlot now millis (checkScheduleSlot now millis s 0) 1) 2

/-- The function `checkSchedule`; `now` is the reading of `rtc.now()` and `millis`
the reading of `millis()` taken by `openValve`. -/
def checkSchedule (s : State) (now : DateTime) (millis : Nat) : State :=
  if s.manualMode || s.isWatering then
    s
  else
    checkScheduleLoop s now millis

/-- Number of times slot `i` fired according to the recorded effects. -/
def firedCount (s : State) (i : Fin 3) : Nat :=
  s.trace.count (Event.scheduleFired i)

/-! ## Duration check of the main loop -/

/-- The auto-close block of `loop`; `millis` is the reading compared with the
duration and `millisClose` the one taken inside `closeValve`. -/
def loopDurationCheck (s : State) (millis millisClose : Nat) : State :=
  if s.isWatering && !s.manualMode then
    if usub millis s.valveOpenTime ≥ umul (toUInt32 s.config.duration) 1000 then
      closeValve s millisClose
    else
      s
  else
    s

/-! ## Remote reconciler: valve-intent poll -/

/-- What one run of `checkRemoteStatus` obtains from the network.
`wifiConnected` is `WiFi.status() == WL_CONNECTED` after the reconnection
attempt. `body = none` is a deserialisation error; otherwise `body` holds the
member `valve_status` of the document, `none` when it is absent or not a
string. -/
structure StatusPoll where
  wifiConnected : Bool
  httpResponseCode : Int
  body : Option (Option CStr)
deriving DecidableEq, Repr

/-- The function `checkRemoteStatus`; `millis` is the reading of `millis()` taken
by `openValve` or `closeValve`. -/
def checkRemoteStatus (s : State) (p : StatusPoll) (millis : Nat) : State :=
  if !p.wifiConnected then
    s
  else if p.httpResponseCode > 0 then
    match p.body with
    | none => s
    | some valve_status =>
      let status : CStr := valve_status.getD (cstr "")
      if status = cstr "ON" then
        if !s.isWatering then
          openValve { s with manualMode := true } millis
        else
          s
      else if status = cstr "OFF" then
        if s.isWatering && s.manualMode then
          closeValve s millis
        else
          s
      else
        s
  else
    s

/-! ## Remote reconciler: schedule sync -/

/-- One element of the remote list as `syncSchedulesFromAPI` reads it; a member
is `none` when it is absent or not of the type asked for. -/
structure ScheduleJson where
  schedule_type : Option CStr
  schedule_time : Option CStr
  is_active : Option Int
  duration_minutes : Option Int
deriving DecidableEq, Repr

/-- A deserialised document: an array of elements, or some other value. -/
inductive JsonDoc where
  | array (items : List ScheduleJson)
  | other
deriving DecidableEq, Repr

/-- What one run of `syncSchedulesFromAPI` obtains from the network;
`wifiConnected` is `WiFi.status() == WL_CONNECTED` after the reconnection
attempt and `body = none` is a deserialisation error. -/
structure SchedulePoll where
  wifiConnected : Bool
  httpResponseCode : Int
  body : Option JsonDoc
deriving DecidableEq, Repr

/-- The block `if (hour != ... || minute != ... || isActive != ...)` of
`syncSchedulesFromAPI` for slot `i`, on the pair (config, configChanged). -/
def updateSlot (i : Fin 3) (hour minute : Int) (isActive : Bool) (acc : Config × Bool) :
    Config × Bool :=
  if hour ≠ (acc.1.schedules.get i).hour ∨ minute ≠ (acc.1.schedules.get i).minute ∨
      isActive ≠ (acc.1.schedules.get i).enabled then
    let entry : Schedule := { hour := hour, minute := minute, enabled := isActive }
    ({ acc.1 with schedules := acc.1.schedules.set i entry }, true)
  else
    acc

/-- The block `if (config.duration != newDuration)` of `syncSchedulesFromAPI`. -/
def updateDuration (newDuration : Int) (acc : Config × Bool) : Config × Bool :=
  if acc.1.duration ≠ newDuration then
    ({ acc.1 with duration := newDuration }, true)
  else
    acc

/-- Body of the range-for loop of `syncSchedulesFromAPI` for the element `d`
at position `i`, on the pair (config, configChanged). -/
def syncEntry (d : ScheduleJson) (i : Fin 3) (acc : Config × Bool) : Config × Bool :=
  let scheduleTime : CStr := d.schedule_time.getD (cstr "")
  let isActiveInt : Int := d.is_active.getD 0
  let isActive : Bool := decide (isActiveInt = 1)
  let duration : Int := d.duration_minutes.getD 30
  if scheduleTime.length ≥ 5 then
    let hour : Int := (scheduleTime.at 0 - 48) * 10 + (scheduleTime.at 1 - 48)
    let minute : Int := (scheduleTime.at 3 - 48) * 10 + (scheduleTime.at 4 - 48)
    let newDuration : Int := toInt32 (duration * 60)
    updateDuration newDuration (updateSlot i hour minute isActive acc)
  else
    acc

/-- The range-for loop of `syncSchedulesFromAPI`: elements are taken in order
while `scheduleIndex < 3`; the result carries the final `scheduleIndex`. -/
def syncLoop : List ScheduleJson → Nat → Config × Bool → Nat × (Config × Bool)
  | [], scheduleIndex, acc => (scheduleIndex, acc)
  | d :: rest, scheduleIndex, acc =>
    if h : scheduleIndex < 3 then
      syncLoop rest (scheduleIndex + 1) (syncEntry d ⟨scheduleIndex, h⟩ acc)
    else
      (scheduleIndex, acc)

/-- Body of the second loop of `syncSchedulesFromAPI` for slot `i`, run when
`scheduleIndex ≤ i`. -/
def disableSlot (scheduleIndex : Nat) (acc : Config × Bool) (i : Fin 3) : Config × Bool :=
  if scheduleIndex ≤ i.val then
    if (acc.1.schedules.get i).enabled then
      ({ acc.1 with schedules :=
          acc.1.schedules.set i { (acc.1.schedules.get i) with enabled := false } }, true)
    else
      acc
  else
    acc

/-- The loop `for (int i = scheduleIndex; i < 3; i++)` of `syncSchedulesFromAPI`. -/
def disableRest (scheduleIndex : Nat) (acc : Config × Bool) : Config × Bool :=
  disableSlot scheduleIndex (disableSlot scheduleIndex (disableSlot scheduleIndex acc 0) 1) 2

/-- The part of `syncSchedulesFromAPI` between `configChanged = false` and the
test of `configChanged`: the new config and the flag. -/
def syncDocument (c : Config) (doc : JsonDoc) : Config × Bool :=
  match doc with
  | JsonDoc.array items =>
    let r := syncLoop items 0 (c, false)
    disableRest r.1 r.2
  | JsonDoc.other => (c, false)

/-- The function `syncSchedulesFromAPI`. -/
def syncSchedulesFromAPI (s : State) (p : SchedulePoll) : State :=
  if !p.wifiConnected then
    s
  else if p.httpResponseCode > 0 then
    match p.body with
    | none => s
    | some doc =>
      let r := syncDocument s.config doc
      let s1 : State := { s with config := r.1 }
      if r.2 then saveConfig s1 else s1
  else
    s

/-- Number of `saveConfig` calls recorded in the trace. -/
def saveCount (s : State) : Nat :=
  s.trace.countP (fun e => match e with
    | Event.eepromCommit _ => true
    | _ => false)

/-! ## Boot state and engine steps -/

/-- State at the end of `setup`: the globals have their initialisers, the
config has been loaded from the stored struct and both pins are driven low. -/
def boot (stored : Config) : State :=
  let s0 : State :=
    { config := stored, eeprom := stored,
      valveOpen := false, isWatering := false, manualMode := false,
      valveOpenTime := 0,
      lastScheduleCheck := { a0 := false, a1 := false, a2 := false },
      relayPin := false, ledPin := false, trace := [] }
  let s1 := loadConfig s0
  { s1 with relayPin := false, ledPin := false,
            trace := s1.trace ++ [Event.digitalWrite RELAY_PIN false, Event.digitalWrite LED_PIN false] }

/-- One step of the engine together with the readings it takes. -/
inductive Step where
  | openValve (millis : Nat)
  | closeValve (millis : Nat)
  | checkSchedule (now : DateTime) (millis : Nat)
  | checkRemoteStatus (p : StatusPoll) (millis : Nat)
  | syncSchedulesFromAPI (p : SchedulePoll)
  | loopDurationCheck (millis millisClose : Nat)
deriving Repr

/-- Effect of one engine step. -/
def step (s : State) : Step → State
  | Step.openValve m => openValve s m
  | Step.closeValve m => closeValve s m
  | Step.checkSchedule now m => checkSchedule s now m
  | Step.checkRemoteStatus p m => checkRemoteStatus s p m
  | Step.syncSchedulesFromAPI p => syncSchedulesFromAPI s p
  | Step.loopDurationCheck m mc => loopDurationCheck s m mc

/-- Effect of a finite sequence of engine steps. -/
def run (s : State) (steps : List Step) : State :=
  steps.foldl step s

/-! ## Predicates used in the statements and proofs -/

/-- The session invariant: the valve flag equals the watering flag, the relay
pin is active exactly when the valve flag is set, and the manual flag is set
only on an open valve. -/
def SessionInv (s : State) : Prop :=
  s.valveOpen = s.isWatering ∧ s.relayPin = s.valveOpen ∧
    (s.manualMode = false ∨ s.valveOpen = true)

instance (s : State) : Decidable (SessionInv s) := by
  unfold SessionInv
  exact inferInstance

/-- Shape shared by the loop bodies of the sync pass that work on slot `i`:
the config part of the result is the argument with slot `i` mapped by an
idempotent function and the duration either kept or set to `D`, and the flag
is raised exactly when that result differs from the argument. -/
def StepOn (i : Fin 3) (D : Int) (f : Config × Bool → Config × Bool) : Prop :=
  ∃ (g : Schedule → Schedule) (setD : Bool), (∀ x, g (g x) = g x) ∧
    ∀ acc : Config × Bool,
      (f acc).1 = { acc.1 with
                    schedules := acc.1.schedules.set i (g (acc.1.schedules.get i)),
                    duration := if setD = true then D else acc.1.duration } ∧
      (f acc).2 = (acc.2 || decide ((f acc).1 ≠ acc.1))

/-- The range of a ScheduleEntry in the specification: hour in 0..23 and
minute in 0..59. -/
def ScheduleInRange (x : Schedule) : Prop :=
  0 ≤ x.hour ∧ x.hour ≤ 23 ∧ 0 ≤ x.minute ∧ x.minute ≤ 59

instance (x : Schedule) : Decidable (ScheduleInRange x) := by
  unfold ScheduleInRange
  exact inferInstance

/-- Every slot of the config is in the range of a ScheduleEntry. -/
def ConfigInRange (c : Config) : Prop :=
  ScheduleInRange c.schedules.a0 ∧ ScheduleInRange c.schedules.a1 ∧
    ScheduleInRange c.schedules.a2

instance (c : Config) : Decidable (ConfigInRange c) := by
  unfold ConfigInRange
  exact inferInstance

/-- Number of sessions opened according to the recorded effects: the writes
that drive the relay pin high. -/
def openedCount (s : State) : Nat :=
  s.trace.count (Event.digitalWrite RELAY_PIN true)

/-- Number of slot firings recorded in the trace, over the three slots. -/
def firingsTotal (s : State) : Nat :=
  firedCount s 0 + firedCount s 1 + firedCount s 2

/-! ## Closed form of a sync pass -/

/-- The time string the loop body reads from an element (`""` when absent). -/
def entryTime (d : ScheduleJson) : CStr := d.schedule_time.getD (cstr "")

/-- The hour, minute and active flag the loop body computes from an element. -/
def entrySlot (d : ScheduleJson) : Schedule :=
  { hour := ((entryTime d).at 0 - 48) * 10 + ((entryTime d).at 1 - 48),
    minute := ((entryTime d).at 3 - 48) * 10 + ((entryTime d).at 4 - 48),
    enabled := decide (d.is_active.getD 0 = 1) }

/-- The value `newDuration` the loop body computes from an element. -/
def entryDuration (d : ScheduleJson) : Int := toInt32 (d.duration_minutes.getD 30 * 60)

/-- Closed form of slot `i` after a sync pass over `items`, from its value `x`
before the pass. -/
def slotAfterSync (items : List ScheduleJson) (i : Fin 3) (x : Schedule) : Schedule :=
  match items.get? i.val with
  | some d => if 5 ≤ (entryTime d).length then entrySlot d else x
  | none => { x with enabled := false }

/-- Closed form of the duration after a sync pass over `items`, from its value
before the pass. -/
def durationAfterSync (items : List ScheduleJson) (duration : Int) : Int :=
  (items.take 3).foldl
    (fun acc d => if 5 ≤ (entryTime d).length then entryDuration d else acc) duration

/-- Closed form of the config after a sync pass over `items`. -/
def configAfterSync (items : List ScheduleJson) (c : Config) : Config :=
  { c with
    schedules := { a0 := slotAfterSync items 0 c.schedules.a0,
                   a1 := slotAfterSync items 1 c.schedules.a1,
                   a2 := slotAfterSync items 2 c.schedules.a2 },
    duration := durationAfterSync items c.duration }

/-- The durations set by the usable elements (time string of 5 or more bytes)
among the first three of an array all equal `D`; no condition on a document
that is not an array. -/
def UniformDuration (doc : JsonDoc) (D : Int) : Prop :=
  match doc with
  | JsonDoc.array items => ∀ d ∈ items.take 3, 5 ≤ (entryTime d).length → entryDuration d = D
  | JsonDoc.other => True

/-! ## Well-formed time strings in the words of the specification -/

/-- Decimal digit test on a byte. -/
def isDigit (b : Nat) : Bool := decide (48 ≤ b) && decide (b ≤ 57)

/-- Reading of a well-formed time string in the words of the specification:
two decimal digits, a separator, two decimal digits; the value is (HH, MM).
Bytes after the fifth are not looked at. -/
def specHHMM : CStr → Option (Nat × Nat)
  | d0 :: d1 :: _ :: d3 :: d4 :: _ =>
    if isDigit d0 && isDigit d1 && isDigit d3 && isDigit d4 then
      some ((d0 - 48) * 10 + (d1 - 48), (d3 - 48) * 10 + (d4 - 48))
    else
      none
  | _ => none

/-! ## Concrete states and answers used to instantiate the theorems -/

/-- A running session opened by the remote command at millisecond 1000. -/
def manualSessionState : State :=
  checkRemoteStatus (boot defaultConfig)
    { wifiConnected := true, httpResponseCode := 200, body := some (some (cstr "ON")) } 1000

/-- A running session opened by slot 0 of the default config at millisecond 1000. -/
def scheduledSessionState : State :=
  checkSchedule (boot defaultConfig) { hour := 6, minute := 0, second := 0 } 1000

/-- An answer of the status endpoint carrying `valve_status`. -/
def statusAnswer (v : String) : StatusPoll :=
  { wifiConnected := true, httpResponseCode := 200, body := some (some (cstr v)) }

/-- An answer of the schedule endpoint with one entry of 71583 minutes. -/
def longDurationAnswer : SchedulePoll :=
  { wifiConnected := true, httpResponseCode := 200,
    body := some (JsonDoc.array
      [{ schedule_type := some (cstr "daily"), schedule_time := some (cstr "06:00"),
         is_active := some 1, duration_minutes := some 71583 }]) }

/-- The session opened by slot 0 at millisecond 1000 after the config was
synchronised with `longDurationAnswer`. -/
def longDurationSession : State :=
  run (boot defaultConfig)
    [Step.syncSchedulesFromAPI longDurationAnswer,
     Step.checkSchedule { hour := 6, minute := 0, second := 0 } 1000]

/-- The boot state with the default config: no session, edge detectors cleared. -/
def idleState : State := boot defaultConfig

/-- The clock reading 06:00:00, the time of slot 0 of the default config. -/
def sixOClock : DateTime := { hour := 6, minute := 0, second := 0 }

/-- A parsed answer of the schedule endpoint carrying the array `items`. -/
def scheduleAnswer (items : List ScheduleJson) : SchedulePoll :=
  { wifiConnected := true, httpResponseCode := 200, body := some (JsonDoc.array items) }

/-- An element with the given time string, active indicator and minutes. -/
def entry (time : String) (active minutes : Int) : ScheduleJson :=
  { schedule_type := some (cstr "daily"), schedule_time := some (cstr time),
    is_active := some active, duration_minutes := some minutes }

/-- The two-entry response of the specification: 06:30 active, 18:00 inactive,
20 minutes each. -/
def specItems : List ScheduleJson := [entry "06:30" 1 20, entry "18:00" 0 20]

/-- One entry whose minutes, times 60, exceed the largest `int`. -/
def hugeDurationItems : List ScheduleJson := [entry "06:00" 1 35791395]

/-- A first entry whose time string has four characters, followed by a usable one. -/
def shortTimeItems : List ScheduleJson := [entry "6:30" 1 20, entry "07:15" 1 20]

/-- A single element without any member. -/
def noTimeItems : List ScheduleJson :=
  [{ schedule_type := none, schedule_time := none, is_active := none, duration_minutes := none }]

/-- Two entries that repeat slots 0 and 1 of the default config and carry
different minutes. -/
def twoDurationItems : List ScheduleJson := [entry "06:00" 1 20, entry "18:00" 1 30]

/-- One entry whose time string has five characters and reads hour 99, minute 99. -/
def outOfRangeItems : List ScheduleJson := [entry "99:99" 1 20]

/-- Two entries with the same time 06:00, both active. -/
def duplicateItems : List ScheduleJson := [entry "06:00" 1 20, entry "06:00" 1 20]

/-- The boot state after a sync pass over `duplicateItems`: slots 0 and 1 are
both 06:00 enabled, no session is active. -/
def duplicateSlotsState : State :=
  syncSchedulesFromAPI idleState (scheduleAnswer duplicateItems)

/-- The clock reading 06:00:01. -/
def sixOClockOne : DateTime := { hour := 6, minute := 0, second := 1 }

/-! ## Theorems -/

/-- C1: in a manual session (isWatering and manualMode both true) the duration
check of the main loop and checkSchedule return the state unchanged for every
stored duration and all readings; a valve-intent poll that changes the state
received the status "OFF", and a poll that receives "OFF" closes the valve. -/
theorem manual_session_closed_only_by_remote_off (s : State)
    (hw : s.isWatering = true) (hm : s.manualMode = true) :
    (∀ millis millisClose, loopDurationCheck s millis millisClose = s) ∧
    (∀ now millis, checkSchedule s now millis = s) ∧
    (∀ st : Step, (∀ m, st ≠ Step.openValve m) → (∀ m, st ≠ Step.closeValve m) →
        (∀ p, st ≠ Step.syncSchedulesFromAPI p) → step s st ≠ s →
        ∃ p m, st = Step.checkRemoteStatus p m ∧ p.wifiConnected = true ∧
          p.httpResponseCode > 0 ∧ p.body = some (some (cstr "OFF"))) ∧
    (∀ p millis, p.wifiConnected = true → p.httpResponseCode > 0 →
        p.body = some (some (cstr "OFF")) →
        checkRemoteStatus s p millis = closeValve s millis ∧
        (checkRemoteStatus s p millis).valveOpen = false) := by
  have hloop : ∀ millis millisClose, loopDurationCheck s millis millisClose = s := by
    intro millis millisClose
    simp [loopDurationCheck, hw, hm]
  have hsched : ∀ now millis, checkSchedule s now millis = s := by
    intro now millis
    simp [checkSchedule, hm]
  refine ⟨hloop, hsched, ?_, ?_⟩
  · intro st h1 h2 h3 hne
    cases st with
    | openValve m => exact absurd rfl (h1 m)
    | closeValve m => exact absurd rfl (h2 m)
    | syncSchedulesFromAPI p => exact absurd rfl (h3 p)
    | checkSchedule now m => exact absurd (hsched now m) hne
    | loopDurationCheck m mc => exact absurd (hloop m mc) hne
    | checkRemoteStatus p m =>
      refine ⟨p, m, rfl, ?_⟩
      simp only [step, checkRemoteStatus] at hne
      by_cases hwifi : p.wifiConnected = true
      · by_cases hcode : p.httpResponseCode > 0
        · refine ⟨hwifi, hcode, ?_⟩
          rcases hb : p.body with _ | v
          · simp [hwifi, hcode, hb] at hne
          · by_cases hoff : v.getD (cstr "") = cstr "OFF"
            · by_cases hon : v.getD (cstr "") = cstr "ON"
              · rw [hon] at hoff
                exact absurd hoff (by decide)
              · rcases v with _ | w
                · exact absurd hoff (by decide)
                · simp only [Option.getD_some] at hoff
                  rw [hoff]
            · exfalso
              apply hne
              by_cases hon : v.getD (cstr "") = cstr "ON"
              · simp [hwifi, hcode, hb, hon, hw]
              · simp [hwifi, hcode, hb, hon, hoff]
        · simp [hwifi, hcode] at hne
      · simp [hwifi] at hne
  · intro p millis hwifi hcode hb
    have hoffon : ¬ (cstr "OFF" = cstr "ON") := by decide
    have h : checkRemoteStatus s p millis = closeValve s millis := by
      simp [checkRemoteStatus, hwifi, hcode, hb, hoffon, hw, hm]
    refine ⟨h, ?_⟩
    rw [h]
    unfold closeValve
    split
    · rfl
    · next hv => simpa using hv

/-- Instance of C1 at the session opened by a remote "ON" after boot. -/
theorem manual_session_closed_only_by_remote_off_witness :
    manualSessionState.isWatering = true ∧ manualSessionState.manualMode = true ∧
    (∀ millis millisClose, loopDurationCheck manualSessionState millis millisClose
        = manualSessionState) ∧
    (checkRemoteStatus manualSessionState (statusAnswer "OFF") 5000).valveOpen = false :=
  have h := manual_session_closed_only_by_remote_off manualSessionState (by decide) (by decide)
  ⟨by decide, by decide, h.1, (h.2.2.2 (statusAnswer "OFF") 5000 rfl (by decide) rfl).2⟩

/-- In the range where the product of the duration and 1000 fits in 32 bits,
the duration check closes a scheduled session exactly when the elapsed
milliseconds (modulo 2 ^ 32) reach the duration in milliseconds. -/
theorem loopDurationCheck_exact_of_small_duration (s : State) (millis millisClose : Nat)
    (hw : s.isWatering = true) (hm : s.manualMode = false)
    (hd0 : 0 ≤ s.config.duration) (hd1 : s.config.duration * 1000 < 4294967296) :
    (((usub millis s.valveOpenTime : Nat) : Int) ≥ s.config.duration * 1000 →
        loopDurationCheck s millis millisClose = closeValve s millisClose) ∧
    (((usub millis s.valveOpenTime : Nat) : Int) < s.config.duration * 1000 →
        loopDurationCheck s millis millisClose = s) := by
  have hthr : ((umul (toUInt32 s.config.duration) 1000 : Nat) : Int) = s.config.duration * 1000 := by
    unfold umul toUInt32
    have h1 : s.config.duration % 4294967296 = s.config.duration :=
      Int.emod_eq_of_lt hd0 (by omega)
    rw [h1]
    have h2 : ((s.config.duration.toNat : Nat) : Int) = s.config.duration := Int.toNat_of_nonneg hd0
    have h3 : s.config.duration.toNat * 1000 < 4294967296 := by omega
    rw [Nat.mod_eq_of_lt h3]
    push_cast
    rw [h2]
  constructor
  · intro h
    have h4 : usub millis s.valveOpenTime ≥ umul (toUInt32 s.config.duration) 1000 := by omega
    simp [loopDurationCheck, hw, hm, h4]
  · intro h
    have h4 : ¬ (usub millis s.valveOpenTime ≥ umul (toUInt32 s.config.duration) 1000) := by omega
    simp only [loopDurationCheck, hw, hm]
    simp [h4]

/-- C2: after a sync that stores 71583 minutes (4294980 seconds) and a firing of
slot 0 at millisecond 1000, the duration check at millisecond 13704 closes the
valve although only 12704 ms of the 4294980000 ms have elapsed: the
threshold computed by the code is the product modulo 2 ^ 32, which is 12704. -/
theorem duration_check_closes_early_on_product_overflow :
    longDurationSession.isWatering = true ∧
    longDurationSession.manualMode = false ∧
    longDurationSession.valveOpen = true ∧
    longDurationSession.valveOpenTime = 1000 ∧
    longDurationSession.config.duration = 4294980 ∧
    usub 13704 longDurationSession.valveOpenTime = 12704 ∧
    ((12704 : Int) < longDurationSession.config.duration * 1000) ∧
    umul (toUInt32 longDurationSession.config.duration) 1000 = 12704 ∧
    (loopDurationCheck longDurationSession 13704 13704).valveOpen = false ∧
    (loopDurationCheck longDurationSession 13704 13704).isWatering = false := by
  decide

/-- C4: while a schedule-triggered session is running (isWatering true,
manualMode false) a valve-intent poll returns the state unchanged whatever the
network delivers, so the session variables, the relay pin and the recorded
pin writes stay as they are. -/
theorem remote_poll_ignored_during_scheduled_session (s : State)
    (hw : s.isWatering = true) (hm : s.manualMode = false) (p : StatusPoll) (millis : Nat) :
    checkRemoteStatus s p millis = s := by
  unfold checkRemoteStatus
  split
  · rfl
  · split
    · split
      · rfl
      · simp [hw, hm]
    · rfl

/-- Instance of C4 at the session opened by slot 0 after boot, for the status "ON". -/
theorem remote_poll_ignored_during_scheduled_session_witness :
    scheduledSessionState.isWatering = true ∧ scheduledSessionState.manualMode = false ∧
    checkRemoteStatus scheduledSessionState (statusAnswer "ON") 5000 = scheduledSessionState :=
  ⟨by decide, by decide,
   remote_poll_ignored_during_scheduled_session scheduledSessionState (by decide) (by decide)
     (statusAnswer "ON") 5000⟩

/-! ### Arrays -/

theorem Arr3.get_set_same {α : Type} (a : Arr3 α) (i : Fin 3) (v : α) :
    (a.set i v).get i = v := by
  fin_cases i <;> rfl

theorem Arr3.get_set_of_ne {α : Type} (a : Arr3 α) (i j : Fin 3) (v : α) (h : j ≠ i) :
    (a.set j v).get i = a.get i := by
  fin_cases i <;> fin_cases j <;> first | rfl | exact absurd rfl h

/-! ### Schedule matcher -/

theorem openValve_config (s : State) (m : Nat) : (openValve s m).config = s.config := by
  unfold openValve
  split <;> rfl

theorem openValve_lastScheduleCheck (s : State) (m : Nat) :
    (openValve s m).lastScheduleCheck = s.lastScheduleCheck := by
  unfold openValve
  split <;> rfl

theorem openValve_firedCount (s : State) (m : Nat) (i : Fin 3) :
    firedCount (openValve s m) i = firedCount s i := by
  unfold openValve firedCount
  split
  · simp [List.count_append, List.count_cons]
  · rfl

theorem fin3_cases (i : Fin 3) : i = 0 ∨ i = 1 ∨ i = 2 := by
  revert i
  decide

theorem checkScheduleSlot_schedules (now : DateTime) (m : Nat) (s : State) (j : Fin 3) :
    (checkScheduleSlot now m s j).config.schedules = s.config.schedules := by
  simp only [checkScheduleSlot]
  split_ifs <;> simp [saveConfig, openValve_config]

theorem checkScheduleSlot_last_of_ne (now : DateTime) (m : Nat) (s : State) (i j : Fin 3)
    (h : j ≠ i) :
    (checkScheduleSlot now m s j).lastScheduleCheck.get i = s.lastScheduleCheck.get i := by
  simp only [checkScheduleSlot]
  split_ifs <;>
    simp [saveConfig, openValve_lastScheduleCheck, Arr3.get_set_of_ne _ _ _ _ h]

theorem checkScheduleSlot_fired_of_ne (now : DateTime) (m : Nat) (s : State) (i j : Fin 3)
    (h : j ≠ i) :
    firedCount (checkScheduleSlot now m s j) i = firedCount s i := by
  have hji : ¬ (Event.scheduleFired j = Event.scheduleFired i) := by
    intro he
    exact h (Event.scheduleFired.inj he)
  have h1 := openValve_firedCount s m i
  simp only [firedCount] at h1 ⊢
  simp only [checkScheduleSlot]
  split_ifs <;>
    simp [saveConfig, List.count_append, List.count_cons, h1, hji]

/-- A slot that is enabled, matches the clock and did not match at the previous
evaluation fires once and records the match. -/
theorem checkScheduleSlot_rising_edge (now : DateTime) (m : Nat) (s : State) (i : Fin 3)
    (hen : (s.config.schedules.get i).enabled = true)
    (hh : (now.hour : Int) = (s.config.schedules.get i).hour)
    (hmin : (now.minute : Int) = (s.config.schedules.get i).minute)
    (hsec : now.second = 0)
    (hl : s.lastScheduleCheck.get i = false) :
    firedCount (checkScheduleSlot now m s i) i = firedCount s i + 1 ∧
    (checkScheduleSlot now m s i).lastScheduleCheck.get i = true := by
  have h1 := openValve_firedCount s m i
  simp only [firedCount] at h1
  constructor
  · simp [checkScheduleSlot, hen, hh.symm, hmin.symm, hsec, hl, firedCount, saveConfig,
      List.count_append, List.count_cons, h1]
  · simp [checkScheduleSlot, hen, hh.symm, hmin.symm, hsec, hl, Arr3.get_set_same]

/-- A slot whose previous evaluation matched does not fire. -/
theorem checkScheduleSlot_no_fire_of_last (now : DateTime) (m : Nat) (s : State) (i : Fin 3)
    (hl : s.lastScheduleCheck.get i = true) :
    firedCount (checkScheduleSlot now m s i) i = firedCount s i := by
  simp only [checkScheduleSlot, firedCount]
  split_ifs <;> simp_all

theorem checkScheduleLoop_rising_edge (now : DateTime) (m : Nat) (s : State) (i : Fin 3)
    (hen : (s.config.schedules.get i).enabled = true)
    (hh : (now.hour : Int) = (s.config.schedules.get i).hour)
    (hmin : (now.minute : Int) = (s.config.schedules.get i).minute)
    (hsec : now.second = 0)
    (hl : s.lastScheduleCheck.get i = false) :
    firedCount (checkScheduleLoop s now m) i = firedCount s i + 1 ∧
    (checkScheduleLoop s now m).lastScheduleCheck.get i = true := by
  unfold checkScheduleLoop
  have c0 := checkScheduleSlot_schedules now m s 0
  have c1 := checkScheduleSlot_schedules now m (checkScheduleSlot now m s 0) 1
  rcases fin3_cases i with rfl | rfl | rfl
  · have e := checkScheduleSlot_rising_edge now m s 0 hen hh hmin hsec hl
    rw [checkScheduleSlot_fired_of_ne now m _ 0 2 (by decide),
      checkScheduleSlot_fired_of_ne now m _ 0 1 (by decide),
      checkScheduleSlot_last_of_ne now m _ 0 2 (by decide),
      checkScheduleSlot_last_of_ne now m _ 0 1 (by decide)]
    exact e
  · have e := checkScheduleSlot_rising_edge now m (checkScheduleSlot now m s 0) 1
      (by rw [c0]; exact hen) (by rw [c0]; exact hh) (by rw [c0]; exact hmin) hsec
      (by rw [checkScheduleSlot_last_of_ne now m _ 1 0 (by decide)]; exact hl)
    rw [checkScheduleSlot_fired_of_ne now m _ 1 0 (by decide)] at e
    rw [checkScheduleSlot_fired_of_ne now m _ 1 2 (by decide),
      checkScheduleSlot_last_of_ne now m _ 1 2 (by decide)]
    exact e
  · have e := checkScheduleSlot_rising_edge now m
      (checkScheduleSlot now m (checkScheduleSlot now m s 0) 1) 2
      (by rw [c1, c0]; exact hen) (by rw [c1, c0]; exact hh) (by rw [c1, c0]; exact hmin) hsec
      (by rw [checkScheduleSlot_last_of_ne now m _ 2 1 (by decide),
            checkScheduleSlot_last_of_ne now m _ 2 0 (by decide)]; exact hl)
    rw [checkScheduleSlot_fired_of_ne now m _ 2 1 (by decide),
      checkScheduleSlot_fired_of_ne now m _ 2 0 (by decide)] at e
    exact e

theorem checkScheduleLoop_no_fire_of_last (now : DateTime) (m : Nat) (s : State) (i : Fin 3)
    (hl : s.lastScheduleCheck.get i = true) :
    firedCount (checkScheduleLoop s now m) i = firedCount s i := by
  unfold checkScheduleLoop
  rcases fin3_cases i with rfl | rfl | rfl
  · rw [checkScheduleSlot_fired_of_ne now m _ 0 2 (by decide),
      checkScheduleSlot_fired_of_ne now m _ 0 1 (by decide)]
    exact checkScheduleSlot_no_fire_of_last now m s 0 hl
  · rw [checkScheduleSlot_fired_of_ne now m _ 1 2 (by decide),
      checkScheduleSlot_no_fire_of_last now m _ 1
        (by rw [checkScheduleSlot_last_of_ne now m _ 1 0 (by decide)]; exact hl),
      checkScheduleSlot_fired_of_ne now m _ 1 0 (by decide)]
  · rw [checkScheduleSlot_no_fire_of_last now m _ 2
        (by rw [checkScheduleSlot_last_of_ne now m _ 2 1 (by decide),
              checkScheduleSlot_last_of_ne now m _ 2 0 (by decide)]; exact hl),
      checkScheduleSlot_fired_of_ne now m _ 2 1 (by decide),
      checkScheduleSlot_fired_of_ne now m _ 2 0 (by decide)]

/-- C3: from a state with no active session and a cleared edge detector of an
enabled slot i, an evaluation of checkSchedule at the slot's hour and minute
with second 0 fires slot i once; the following evaluation, which finds the
edge detector of slot i as the first one left it, fires slot i zero times
for every clock reading (so also when the clock still shows that minute at
second 0) and for every session state it finds, running or closed. -/
theorem schedule_slot_fires_once_per_match (s s2 : State) (i : Fin 3)
    (now1 now2 : DateTime) (m1 m2 : Nat)
    (hw : s.isWatering = false) (hm : s.manualMode = false)
    (hen : (s.config.schedules.get i).enabled = true)
    (hl : s.lastScheduleCheck.get i = false)
    (hh1 : (now1.hour : Int) = (s.config.schedules.get i).hour)
    (hmin1 : (now1.minute : Int) = (s.config.schedules.get i).minute)
    (hsec1 : now1.second = 0)
    (hlast : s2.lastScheduleCheck.get i = (checkSchedule s now1 m1).lastScheduleCheck.get i) :
    firedCount (checkSchedule s now1 m1) i = firedCount s i + 1 ∧
    firedCount (checkSchedule s2 now2 m2) i = firedCount s2 i := by
  have e1 : checkSchedule s now1 m1 = checkScheduleLoop s now1 m1 := by
    simp [checkSchedule, hw, hm]
  have first := checkScheduleLoop_rising_edge now1 m1 s i hen hh1 hmin1 hsec1 hl
  rw [← e1] at first
  refine ⟨first.1, ?_⟩
  have hl2 : s2.lastScheduleCheck.get i = true := by rw [hlast]; exact first.2
  by_cases hret : (s2.manualMode || s2.isWatering) = true
  · simp [checkSchedule, hret]
  · have e2 : checkSchedule s2 now2 m2 = checkScheduleLoop s2 now2 m2 := by
      simp [checkSchedule, hret]
    rw [e2]
    exact checkScheduleLoop_no_fire_of_last now2 m2 s2 i hl2

/-- Instance of C3 at boot with the default config, slot 0 and 06:00:00, the
session being closed again before the second evaluation. -/
theorem schedule_slot_fires_once_per_match_witness :
    idleState.isWatering = false ∧ idleState.manualMode = false ∧
    (idleState.config.schedules.get 0).enabled = true ∧
    idleState.lastScheduleCheck.get 0 = false ∧
    firedCount (checkSchedule idleState sixOClock 1000) 0 = firedCount idleState 0 + 1 ∧
    firedCount (checkSchedule (closeValve (checkSchedule idleState sixOClock 1000) 1500)
        sixOClock 2000) 0
      = firedCount (closeValve (checkSchedule idleState sixOClock 1000) 1500) 0 :=
  ⟨by decide, by decide, by decide, by decide,
   schedule_slot_fires_once_per_match idleState
     (closeValve (checkSchedule idleState sixOClock 1000) 1500) 0 sixOClock sixOClock 1000 2000
     (by decide) (by decide) (by decide) (by decide) (by decide) (by decide) (by decide)
     (by decide)⟩

/-! ### Valve actuator -/

/-- C8: openValve returns the state unchanged when the valve is open, closeValve
returns it unchanged when the valve is closed; hence a second openValve after
an openValve, and a second closeValve after a closeValve, change nothing. -/
theorem valve_transitions_idempotent :
    (∀ (s : State) (millis : Nat), s.valveOpen = true → openValve s millis = s) ∧
    (∀ (s : State) (millis : Nat), s.valveOpen = false → closeValve s millis = s) ∧
    (∀ (s : State) (m1 m2 : Nat), openValve (openValve s m1) m2 = openValve s m1) ∧
    (∀ (s : State) (m1 m2 : Nat), closeValve (closeValve s m1) m2 = closeValve s m1) := by
  have ho : ∀ (s : State) (millis : Nat), s.valveOpen = true → openValve s millis = s := by
    intro s millis h
    simp [openValve, h]
  have hc : ∀ (s : State) (millis : Nat), s.valveOpen = false → closeValve s millis = s := by
    intro s millis h
    simp [closeValve, h]
  refine ⟨ho, hc, ?_, ?_⟩
  · intro s m1 m2
    apply ho
    unfold openValve
    split
    · rfl
    · next h => simpa using h
  · intro s m1 m2
    apply hc
    unfold closeValve
    split
    · rfl
    · next h => simpa using h

/-- Instance of C8 at a running scheduled session and at the idle boot state. -/
theorem valve_transitions_idempotent_witness :
    scheduledSessionState.valveOpen = true ∧
    openValve scheduledSessionState 7000 = scheduledSessionState ∧
    idleState.valveOpen = false ∧
    closeValve idleState 7000 = idleState :=
  ⟨by decide, valve_transitions_idempotent.1 scheduledSessionState 7000 (by decide),
   by decide, valve_transitions_idempotent.2.1 idleState 7000 (by decide)⟩

/-! ### Config store -/

/-- C9: loadConfig on a stored struct whose marker differs from 54321 yields
the defaults (06:00 enabled, 18:00 enabled, 12:00 disabled, 30 seconds,
counter 0, marker 54321) and writes them to the EEPROM once; on a stored
struct whose marker is 54321 it yields that struct and writes nothing. No
other variable changes in either case. -/
theorem loadConfig_defaults_iff_marker_mismatch (s : State) :
    (s.eeprom.magicNumber ≠ 54321 →
      loadConfig s = { s with config := defaultConfig, eeprom := defaultConfig,
                              trace := s.trace ++ [Event.eepromCommit defaultConfig] } ∧
      saveCount (loadConfig s) = saveCount s + 1) ∧
    (s.eeprom.magicNumber = 54321 →
      loadConfig s = { s with config := s.eeprom } ∧
      (loadConfig s).eeprom = s.eeprom ∧
      saveCount (loadConfig s) = saveCount s) ∧
    defaultConfig =
      { schedules := { a0 := { hour := 6, minute := 0, enabled := true },
                       a1 := { hour := 18, minute := 0, enabled := true },
                       a2 := { hour := 12, minute := 0, enabled := false } },
        duration := 30, wateringCount := 0, magicNumber := 54321 } := by
  refine ⟨?_, ?_, rfl⟩
  · intro h
    have e : loadConfig s =
        { s with config := defaultConfig, eeprom := defaultConfig,
                 trace := s.trace ++ [Event.eepromCommit defaultConfig] } := by
      simp [loadConfig, MAGIC_NUMBER, h, saveConfig, defaultConfig, Arr3.set]
    refine ⟨e, ?_⟩
    rw [e]
    simp [saveCount, List.countP_append]
  · intro h
    have e : loadConfig s = { s with config := s.eeprom } := by
      simp [loadConfig, MAGIC_NUMBER, h]
    refine ⟨e, ?_, ?_⟩
    · rw [e]
    · rw [e]
      rfl

/-- Instance of C9 at a stored struct whose marker is 0. -/
theorem loadConfig_defaults_iff_marker_mismatch_witness :
    ({ idleState with eeprom := { defaultConfig with duration := 77, magicNumber := 0 } } :
        State).eeprom.magicNumber ≠ 54321 ∧
    (loadConfig { idleState with eeprom := { defaultConfig with duration := 77, magicNumber := 0 } }).config
      = defaultConfig :=
  ⟨by decide,
   by
    rw [((loadConfig_defaults_iff_marker_mismatch
      { idleState with eeprom := { defaultConfig with duration := 77, magicNumber := 0 } }).1
      (by decide)).1]⟩

/-! ### Session invariant -/

theorem SessionInv_boot (stored : Config) : SessionInv (boot stored) := by
  unfold SessionInv boot loadConfig
  simp only
  split <;> simp [saveConfig]

theorem SessionInv_openValve (s : State) (m : Nat) (h : SessionInv s) :
    SessionInv (openValve s m) := by
  unfold SessionInv at *
  unfold openValve
  split
  · simp
  · exact h

theorem SessionInv_closeValve (s : State) (m : Nat) (h : SessionInv s) :
    SessionInv (closeValve s m) := by
  unfold SessionInv at *
  unfold closeValve
  split
  · simp
  · exact h

theorem SessionInv_of_session_eq (s t : State) (h : SessionInv s)
    (h1 : t.valveOpen = s.valveOpen) (h2 : t.isWatering = s.isWatering)
    (h3 : t.manualMode = s.manualMode) (h4 : t.relayPin = s.relayPin) : SessionInv t := by
  unfold SessionInv at *
  rw [h1, h2, h3, h4]
  exact h

theorem SessionInv_checkScheduleSlot (now : DateTime) (m : Nat) (s : State) (i : Fin 3)
    (h : SessionInv s) : SessionInv (checkScheduleSlot now m s i) := by
  have ho := SessionInv_openValve s m h
  simp only [checkScheduleSlot]
  split_ifs
  · exact h
  · exact SessionInv_of_session_eq (openValve s m) _ ho rfl rfl rfl rfl
  · exact SessionInv_of_session_eq s _ h rfl rfl rfl rfl

theorem SessionInv_checkSchedule (now : DateTime) (m : Nat) (s : State) (h : SessionInv s) :
    SessionInv (checkSchedule s now m) := by
  unfold checkSchedule checkScheduleLoop
  split
  · exact h
  · exact SessionInv_checkScheduleSlot _ _ _ _
      (SessionInv_checkScheduleSlot _ _ _ _ (SessionInv_checkScheduleSlot _ _ _ _ h))

theorem SessionInv_checkRemoteStatus (p : StatusPoll) (m : Nat) (s : State) (h : SessionInv s) :
    SessionInv (checkRemoteStatus s p m) := by
  unfold checkRemoteStatus
  split
  · exact h
  · split
    · split
      · exact h
      · simp only
        split_ifs with h1 h2 h3 h4
        · have hv : s.valveOpen = false := by
            rw [h.1]
            simpa using h2
          unfold SessionInv openValve
          simp [hv]
        · exact h
        · exact SessionInv_closeValve s m h
        · exact h
        · exact h
    · exact h

theorem SessionInv_syncSchedulesFromAPI (p : SchedulePoll) (s : State) (h : SessionInv s) :
    SessionInv (syncSchedulesFromAPI s p) := by
  unfold syncSchedulesFromAPI
  split
  · exact h
  · split
    · split
      · exact h
      · simp only
        split
        · exact SessionInv_of_session_eq s _ h rfl rfl rfl rfl
        · exact SessionInv_of_session_eq s _ h rfl rfl rfl rfl
    · exact h

theorem SessionInv_loopDurationCheck (m mc : Nat) (s : State) (h : SessionInv s) :
    SessionInv (loopDurationCheck s m mc) := by
  unfold loopDurationCheck
  split
  · split
    · exact SessionInv_closeValve s mc h
    · exact h
  · exact h

theorem SessionInv_step (s : State) (st : Step) (h : SessionInv s) : SessionInv (step s st) := by
  cases st with
  | openValve m => exact SessionInv_openValve s m h
  | closeValve m => exact SessionInv_closeValve s m h
  | checkSchedule now m => exact SessionInv_checkSchedule now m s h
  | checkRemoteStatus p m => exact SessionInv_checkRemoteStatus p m s h
  | syncSchedulesFromAPI p => exact SessionInv_syncSchedulesFromAPI p s h
  | loopDurationCheck m mc => exact SessionInv_loopDurationCheck m mc s h

theorem SessionInv_run (steps : List Step) (s : State) (h : SessionInv s) :
    SessionInv (run s steps) := by
  induction steps generalizing s with
  | nil => exact h
  | cons st rest ih => exact ih (step s st) (SessionInv_step s st h)

/-- C7: every state reached from the boot state, for any stored config, by a
finite sequence of engine steps (openValve, closeValve, checkSchedule, the
valve-intent poll, the schedule sync, the duration check, with arbitrary
readings) has valveOpen equal to isWatering, the relay pin active exactly
when valveOpen is true, and manualMode set only when valveOpen is true;
closeValve always leaves manualMode false. -/
theorem session_invariant_reachable (stored : Config) (steps : List Step) :
    ((run (boot stored) steps).valveOpen = (run (boot stored) steps).isWatering ∧
     (run (boot stored) steps).relayPin = (run (boot stored) steps).valveOpen ∧
     ((run (boot stored) steps).manualMode = false ∨ (run (boot stored) steps).valveOpen = true)) ∧
    (∀ millis, (closeValve (run (boot stored) steps) millis).manualMode = false) := by
  have h := SessionInv_run steps (boot stored) (SessionInv_boot stored)
  refine ⟨h, ?_⟩
  intro millis
  unfold closeValve
  split
  · rfl
  · next hv =>
    have hv2 : (run (boot stored) steps).valveOpen = false := by simpa using hv
    rcases h.2.2 with hm | hopen
    · exact hm
    · rw [hv2] at hopen
      exact absurd hopen (by decide)

/-! ### Schedule sync: loop bodies -/

theorem Arr3.set_get_self {α : Type} (a : Arr3 α) (i : Fin 3) : a.set i (a.get i) = a := by
  rcases fin3_cases i with rfl | rfl | rfl <;> rfl

theorem Arr3.set_eq_self_iff {α : Type} (a : Arr3 α) (i : Fin 3) (v : α) :
    a.set i v = a ↔ v = a.get i := by
  constructor
  · intro h
    have := Arr3.get_set_same a i v
    rw [h] at this
    exact this.symm
  · intro h
    rw [h]
    exact Arr3.set_get_self a i

theorem syncEntry_of_short (d : ScheduleJson) (i : Fin 3) (acc : Config × Bool)
    (h : (d.schedule_time.getD (cstr "")).length < 5) : syncEntry d i acc = acc := by
  have h2 : ¬ ((d.schedule_time.getD (cstr "")).length ≥ 5) := by omega
  simp only [syncEntry, h2, if_false]

theorem Config.eq_iff (c e : Config) :
    c = e ↔ c.schedules = e.schedules ∧ c.duration = e.duration ∧
      c.wateringCount = e.wateringCount ∧ c.magicNumber = e.magicNumber := by
  cases c
  cases e
  simp

theorem updateSlot_fst (i : Fin 3) (hour minute : Int) (isActive : Bool) (acc : Config × Bool) :
    (updateSlot i hour minute isActive acc).1 =
      { acc.1 with schedules := acc.1.schedules.set i (Schedule.mk hour minute isActive) } := by
  unfold updateSlot
  split
  · rfl
  · next h =>
    have h2 : ({ hour := hour, minute := minute, enabled := isActive } : Schedule)
        = acc.1.schedules.get i := by
      have e : ∀ x : Schedule, ¬ (hour ≠ x.hour ∨ minute ≠ x.minute ∨ isActive ≠ x.enabled) →
          ({ hour := hour, minute := minute, enabled := isActive } : Schedule) = x := by
        intro x hx
        cases x
        simp only [ne_eq, not_or, not_not] at hx
        simp [hx.1, hx.2.1, hx.2.2]
      exact e _ h
    rw [h2, Arr3.set_get_self]

theorem updateSlot_snd (i : Fin 3) (hour minute : Int) (isActive : Bool) (acc : Config × Bool) :
    (updateSlot i hour minute isActive acc).2 =
      (acc.2 || decide ((updateSlot i hour minute isActive acc).1 ≠ acc.1)) := by
  unfold updateSlot
  split
  · next h =>
    have hne : acc.1.schedules.set i (Schedule.mk hour minute isActive) ≠ acc.1.schedules := by
      intro he
      have := (Arr3.set_eq_self_iff _ _ _).1 he
      apply absurd h
      simp only [ne_eq, not_or, not_not]
      refine ⟨?_, ?_, ?_⟩
      · exact congrArg Schedule.hour this
      · exact congrArg Schedule.minute this
      · exact congrArg Schedule.enabled this
    simp [Config.eq_iff, hne]
  · simp

theorem syncEntry_stepOn (d : ScheduleJson) (i : Fin 3) (D : Int)
    (hD : 5 ≤ (d.schedule_time.getD (cstr "")).length →
      toInt32 (d.duration_minutes.getD 30 * 60) = D) :
    StepOn i D (syncEntry d i) := by
  by_cases hv : 5 ≤ (d.schedule_time.getD (cstr "")).length
  · have hDv := hD hv
    refine ⟨fun _ =>
      { hour := ((d.schedule_time.getD (cstr "")).at 0 - 48) * 10
                  + ((d.schedule_time.getD (cstr "")).at 1 - 48),
        minute := ((d.schedule_time.getD (cstr "")).at 3 - 48) * 10
                  + ((d.schedule_time.getD (cstr "")).at 4 - 48),
        enabled := decide (d.is_active.getD 0 = 1) }, true, fun _ => rfl, ?_⟩
    intro acc
    have hv2 : (d.schedule_time.getD (cstr "")).length ≥ 5 := hv
    simp only [syncEntry, hv2, if_true, hDv]
    generalize ((d.schedule_time.getD (cstr "")).at 0 - 48) * 10
                  + ((d.schedule_time.getD (cstr "")).at 1 - 48) = hour
    generalize ((d.schedule_time.getD (cstr "")).at 3 - 48) * 10
                  + ((d.schedule_time.getD (cstr "")).at 4 - 48) = minute
    generalize decide (d.is_active.getD 0 = 1) = isActive
    have h1 := updateSlot_fst i hour minute isActive acc
    have h2 := updateSlot_snd i hour minute isActive acc
    generalize updateSlot i hour minute isActive acc = r at h1 h2
    have hfst : (updateDuration D r).1 =
        { acc.1 with schedules := acc.1.schedules.set i (Schedule.mk hour minute isActive),
                     duration := D } := by
      unfold updateDuration
      split
      · simp [h1]
      · next h =>
        have hd : r.1.duration = D := by simpa using h
        rw [Config.eq_iff]
        simp [h1, ← hd]
    refine ⟨by simpa using hfst, ?_⟩
    unfold updateDuration
    split
    · next h =>
      have hne : ¬ (D = acc.1.duration) := by
        intro he
        apply h
        rw [h1]
        exact he.symm
      simp [Config.eq_iff, hne]
    · next h =>
      have hd : r.1.duration = D := by simpa using h
      rw [h2]
  · refine ⟨id, false, fun _ => rfl, ?_⟩
    intro acc
    have e := syncEntry_of_short d i acc (by omega)
    rw [e]
    simp [Arr3.set_get_self]

theorem disableSlot_stepOn (scheduleIndex : Nat) (i : Fin 3) (D : Int) :
    StepOn i D (fun acc => disableSlot scheduleIndex acc i) := by
  by_cases hle : scheduleIndex ≤ i.val
  · refine ⟨fun x => { x with enabled := false }, false, fun _ => rfl, ?_⟩
    intro acc
    simp only [disableSlot, hle, if_true]
    split
    · next hen =>
      have hne : acc.1.schedules.set i { (acc.1.schedules.get i) with enabled := false }
          ≠ acc.1.schedules := by
        intro he
        have := congrArg Schedule.enabled ((Arr3.set_eq_self_iff _ _ _).1 he)
        rw [hen] at this
        exact Bool.noConfusion this
      simp [Config.eq_iff, hne]
    · next hen =>
      have hfalse : (acc.1.schedules.get i).enabled = false := by simpa using hen
      have hself : ({ (acc.1.schedules.get i) with enabled := false } : Schedule)
          = acc.1.schedules.get i := by
        generalize acc.1.schedules.get i = x at hfalse
        cases x
        simp only at hfalse
        simp [hfalse]
      simp [hself, Arr3.set_get_self]
  · refine ⟨id, false, fun _ => rfl, ?_⟩
    intro acc
    simp [disableSlot, hle, Arr3.set_get_self]

theorem Arr3.get_zero {α : Type} (a : Arr3 α) : a.get 0 = a.a0 := rfl

theorem Arr3.get_one {α : Type} (a : Arr3 α) : a.get 1 = a.a1 := rfl

theorem Arr3.get_two {α : Type} (a : Arr3 α) : a.get 2 = a.a2 := rfl

theorem Arr3.set_zero {α : Type} (a : Arr3 α) (v : α) : a.set 0 v = { a with a0 := v } := rfl

theorem Arr3.set_one {α : Type} (a : Arr3 α) (v : α) : a.set 1 v = { a with a1 := v } := rfl

theorem Arr3.set_two {α : Type} (a : Arr3 α) (v : α) : a.set 2 v = { a with a2 := v } := rfl

/-- Three loop bodies, one per slot, applied in order to a config with the
flag cleared: the counter and the marker are kept, a cleared flag at the end
means an unchanged config, the config part is a fixed point of the same three
bodies, and when the three bodies agree on the duration they may set, the
flag at the end is raised exactly when the config changed. -/
theorem stepOn_three (f0 f1 f2 : Config × Bool → Config × Bool) (D0 D1 D2 : Int)
    (h0 : StepOn 0 D0 f0) (h1 : StepOn 1 D1 f1) (h2 : StepOn 2 D2 f2) (c : Config) :
    ((f2 (f1 (f0 (c, false)))).2 = false → (f2 (f1 (f0 (c, false)))).1 = c) ∧
    (f2 (f1 (f0 (c, false)))).1.wateringCount = c.wateringCount ∧
    (f2 (f1 (f0 (c, false)))).1.magicNumber = c.magicNumber ∧
    (f2 (f1 (f0 ((f2 (f1 (f0 (c, false)))).1, false)))).1 = (f2 (f1 (f0 (c, false)))).1 ∧
    (D0 = D1 → D1 = D2 →
      (f2 (f1 (f0 (c, false)))).2 = decide ((f2 (f1 (f0 (c, false)))).1 ≠ c)) := by
  obtain ⟨g0, b0, i0, e0⟩ := h0
  obtain ⟨g1, b1, i1, e1⟩ := h1
  obtain ⟨g2, b2, i2, e2⟩ := h2
  have shape : ∀ c : Config,
      (f2 (f1 (f0 (c, false)))).1 =
        { c with
          schedules := { a0 := g0 c.schedules.a0, a1 := g1 c.schedules.a1, a2 := g2 c.schedules.a2 },
          duration := if b2 = true then D2 else if b1 = true then D1
                      else if b0 = true then D0 else c.duration } ∧
      (f2 (f1 (f0 (c, false)))).2 =
        (decide ((f0 (c, false)).1 ≠ c) || decide ((f1 (f0 (c, false))).1 ≠ (f0 (c, false)).1)
          || decide ((f2 (f1 (f0 (c, false)))).1 ≠ (f1 (f0 (c, false))).1)) ∧
      (f0 (c, false)).1 = { c with schedules := { c.schedules with a0 := g0 c.schedules.a0 },
                                   duration := if b0 = true then D0 else c.duration } ∧
      (f1 (f0 (c, false))).1 =
        { c with schedules := { c.schedules with a0 := g0 c.schedules.a0, a1 := g1 c.schedules.a1 },
                 duration := if b1 = true then D1 else if b0 = true then D0 else c.duration } := by
    intro c
    have E0 := e0 (c, false)
    have E1 := e1 (f0 (c, false))
    have E2 := e2 (f1 (f0 (c, false)))
    refine ⟨?_, ?_, ?_, ?_⟩
    · rw [E2.1, E1.1, E0.1]
      simp [Arr3.get_zero, Arr3.get_one, Arr3.get_two, Arr3.set_zero, Arr3.set_one, Arr3.set_two]
    · rw [E2.2, E1.2, E0.2]
      simp
    · rw [E0.1]
      simp [Arr3.get_zero, Arr3.set_zero]
    · rw [E1.1, E0.1]
      simp [Arr3.get_zero, Arr3.get_one, Arr3.set_zero, Arr3.set_one]
  obtain ⟨s3, sf, s1, s2⟩ := shape c
  have s3b := (shape (f2 (f1 (f0 (c, false)))).1).1
  rcases c with ⟨⟨x0, x1, x2⟩, dur, wc, mg⟩
  refine ⟨?_, ?_, ?_, ?_, ?_⟩
  · intro hfl
    rw [sf] at hfl
    simp only [Bool.or_eq_false_iff, decide_eq_false_iff_not, ne_eq, not_not] at hfl
    rw [hfl.2, hfl.1.2, hfl.1.1]
  · rw [s3]
  · rw [s3]
  · rw [s3b, s3]
    simp only [i0, i1, i2]
    cases b0 <;> cases b1 <;> cases b2 <;> simp
  · intro h01 h12
    subst h01
    subst h12
    rw [sf, s3, s2, s1]
    clear sf s3 s2 s1 s3b shape e0 e1 e2 i0 i1 i2
    simp only [Config.eq_iff, Arr3.mk.injEq]
    cases b0 <;> cases b1 <;> cases b2 <;> simp <;>
      (rw [Bool.eq_iff_iff]; simp only [Bool.or_eq_true]; tauto)

/-! ### Schedule sync: closed form of a pass -/

theorem updateDuration_fst (D : Int) (r : Config × Bool) :
    (updateDuration D r).1 = { r.1 with duration := D } := by
  unfold updateDuration
  split
  · rfl
  · next h =>
    have hd : r.1.duration = D := by simpa using h
    rw [Config.eq_iff]
    simp [hd]

theorem syncEntry_fst (d : ScheduleJson) (i : Fin 3) (acc : Config × Bool) :
    (syncEntry d i acc).1 =
      if 5 ≤ (entryTime d).length then
        { acc.1 with schedules := acc.1.schedules.set i (entrySlot d), duration := entryDuration d }
      else acc.1 := by
  by_cases hv : 5 ≤ (entryTime d).length
  · have hv2 : (d.schedule_time.getD (cstr "")).length ≥ 5 := hv
    simp only [syncEntry, hv2, hv, if_true]
    rw [updateDuration_fst, updateSlot_fst]
    rfl
  · rw [syncEntry_of_short d i acc (by unfold entryTime at hv; omega)]
    simp [hv]

theorem disableSlot_fst (scheduleIndex : Nat) (i : Fin 3) (acc : Config × Bool) :
    (disableSlot scheduleIndex acc i).1 =
      if scheduleIndex ≤ i.val then
        { acc.1 with schedules :=
            acc.1.schedules.set i (Schedule.mk (acc.1.schedules.get i).hour
              (acc.1.schedules.get i).minute false) }
      else acc.1 := by
  unfold disableSlot
  split
  · split
    · rfl
    · next hen =>
      have hfalse : (acc.1.schedules.get i).enabled = false := by simpa using hen
      have hself : Schedule.mk (acc.1.schedules.get i).hour (acc.1.schedules.get i).minute false
          = acc.1.schedules.get i := by
        generalize acc.1.schedules.get i = x at hfalse
        cases x
        simp only at hfalse
        simp [hfalse]
      rw [hself, Arr3.set_get_self]
  · rfl

theorem syncDocument_array_nil (c : Config) :
    syncDocument c (JsonDoc.array []) =
      disableSlot 0 (disableSlot 0 (disableSlot 0 (c, false) 0) 1) 2 := rfl

theorem syncDocument_array_one (c : Config) (a : ScheduleJson) :
    syncDocument c (JsonDoc.array [a]) =
      disableSlot 1 (disableSlot 1 (syncEntry a 0 (c, false)) 1) 2 := by
  simp [syncDocument, syncLoop, disableRest, disableSlot]

theorem syncDocument_array_two (c : Config) (a b : ScheduleJson) :
    syncDocument c (JsonDoc.array [a, b]) =
      disableSlot 2 (syncEntry b 1 (syncEntry a 0 (c, false))) 2 := by
  simp [syncDocument, syncLoop, disableRest, disableSlot]

theorem syncDocument_array_three (c : Config) (a b e : ScheduleJson) (rest : List ScheduleJson) :
    syncDocument c (JsonDoc.array (a :: b :: e :: rest)) =
      syncEntry e 2 (syncEntry b 1 (syncEntry a 0 (c, false))) := by
  cases rest <;> simp [syncDocument, syncLoop, disableRest, disableSlot]

/-- The config part of a sync pass over an array is given by the closed form. -/
theorem syncDocument_fst_array (c : Config) (items : List ScheduleJson) :
    (syncDocument c (JsonDoc.array items)).1 = configAfterSync items c := by
  rcases c with ⟨⟨x0, x1, x2⟩, dur, wc, mg⟩
  rcases items with _ | ⟨a, _ | ⟨b, _ | ⟨e, rest⟩⟩⟩
  · rw [syncDocument_array_nil]
    simp [disableSlot_fst, configAfterSync, slotAfterSync, durationAfterSync,
      Arr3.get_zero, Arr3.get_one, Arr3.get_two, Arr3.set_zero, Arr3.set_one, Arr3.set_two]
  · rw [syncDocument_array_one]
    simp only [disableSlot_fst, syncEntry_fst, configAfterSync, slotAfterSync, durationAfterSync]
    by_cases ha : 5 ≤ (entryTime a).length <;>
      simp [ha, Arr3.get_zero, Arr3.get_one, Arr3.get_two, Arr3.set_zero, Arr3.set_one,
        Arr3.set_two]
  · rw [syncDocument_array_two]
    simp only [disableSlot_fst, syncEntry_fst, configAfterSync, slotAfterSync, durationAfterSync]
    by_cases ha : 5 ≤ (entryTime a).length <;> by_cases hb : 5 ≤ (entryTime b).length <;>
      simp [ha, hb, Arr3.get_zero, Arr3.get_one, Arr3.get_two, Arr3.set_zero, Arr3.set_one,
        Arr3.set_two]
  · rw [syncDocument_array_three]
    simp only [syncEntry_fst, configAfterSync, slotAfterSync, durationAfterSync]
    by_cases ha : 5 ≤ (entryTime a).length <;> by_cases hb : 5 ≤ (entryTime b).length <;>
      by_cases he : 5 ≤ (entryTime e).length <;>
      simp [ha, hb, he, Arr3.get_zero, Arr3.get_one, Arr3.get_two, Arr3.set_zero, Arr3.set_one,
        Arr3.set_two]

/-! ### Schedule sync: the flag and the write -/

/-- A sync pass over an array is three loop bodies, one per slot. -/
theorem syncDocument_steps (items : List ScheduleJson) :
    ∃ f0 f1 f2 : Config × Bool → Config × Bool,
      (∀ c, syncDocument c (JsonDoc.array items) = f2 (f1 (f0 (c, false)))) ∧
      (∃ D0 D1 D2, StepOn 0 D0 f0 ∧ StepOn 1 D1 f1 ∧ StepOn 2 D2 f2) ∧
      (∀ D, (∀ d ∈ items.take 3, 5 ≤ (entryTime d).length → entryDuration d = D) →
        StepOn 0 D f0 ∧ StepOn 1 D f1 ∧ StepOn 2 D f2) := by
  rcases items with _ | ⟨a, _ | ⟨b, _ | ⟨e, rest⟩⟩⟩
  · refine ⟨fun acc => disableSlot 0 acc 0, fun acc => disableSlot 0 acc 1,
      fun acc => disableSlot 0 acc 2, fun c => syncDocument_array_nil c, ?_, ?_⟩
    · exact ⟨0, 0, 0, disableSlot_stepOn 0 0 0, disableSlot_stepOn 0 1 0,
        disableSlot_stepOn 0 2 0⟩
    · intro D _
      exact ⟨disableSlot_stepOn 0 0 D, disableSlot_stepOn 0 1 D, disableSlot_stepOn 0 2 D⟩
  · refine ⟨syncEntry a 0, fun acc => disableSlot 1 acc 1, fun acc => disableSlot 1 acc 2,
      fun c => syncDocument_array_one c a, ?_, ?_⟩
    · exact ⟨entryDuration a, 0, 0, syncEntry_stepOn a 0 _ (fun _ => rfl),
        disableSlot_stepOn 1 1 0, disableSlot_stepOn 1 2 0⟩
    · intro D hD
      exact ⟨syncEntry_stepOn a 0 D (hD a (by simp)), disableSlot_stepOn 1 1 D,
        disableSlot_stepOn 1 2 D⟩
  · refine ⟨syncEntry a 0, syncEntry b 1, fun acc => disableSlot 2 acc 2,
      fun c => syncDocument_array_two c a b, ?_, ?_⟩
    · exact ⟨entryDuration a, entryDuration b, 0, syncEntry_stepOn a 0 _ (fun _ => rfl),
        syncEntry_stepOn b 1 _ (fun _ => rfl), disableSlot_stepOn 2 2 0⟩
    · intro D hD
      exact ⟨syncEntry_stepOn a 0 D (hD a (by simp)), syncEntry_stepOn b 1 D (hD b (by simp)),
        disableSlot_stepOn 2 2 D⟩
  · refine ⟨syncEntry a 0, syncEntry b 1, syncEntry e 2,
      fun c => syncDocument_array_three c a b e rest, ?_, ?_⟩
    · exact ⟨entryDuration a, entryDuration b, entryDuration e,
        syncEntry_stepOn a 0 _ (fun _ => rfl), syncEntry_stepOn b 1 _ (fun _ => rfl),
        syncEntry_stepOn e 2 _ (fun _ => rfl)⟩
    · intro D hD
      exact ⟨syncEntry_stepOn a 0 D (hD a (by simp)), syncEntry_stepOn b 1 D (hD b (by simp)),
        syncEntry_stepOn e 2 D (hD e (by simp))⟩

theorem syncDocument_props (c : Config) (doc : JsonDoc) :
    ((syncDocument c doc).2 = false → (syncDocument c doc).1 = c) ∧
    (syncDocument c doc).1.wateringCount = c.wateringCount ∧
    (syncDocument c doc).1.magicNumber = c.magicNumber ∧
    (syncDocument (syncDocument c doc).1 doc).1 = (syncDocument c doc).1 ∧
    (∀ D, UniformDuration doc D →
      (syncDocument c doc).2 = decide ((syncDocument c doc).1 ≠ c) ∧
      (syncDocument (syncDocument c doc).1 doc).2 = false) := by
  cases doc with
  | other =>
    refine ⟨fun _ => rfl, rfl, rfl, rfl, ?_⟩
    intro D _
    simp [syncDocument]
  | array items =>
    obtain ⟨f0, f1, f2, hf, ⟨D0, D1, D2, h0, h1, h2⟩, hu⟩ := syncDocument_steps items
    have g := stepOn_three f0 f1 f2 D0 D1 D2 h0 h1 h2 c
    rw [hf c, hf (f2 (f1 (f0 (c, false)))).1]
    refine ⟨g.1, g.2.1, g.2.2.1, g.2.2.2.1, ?_⟩
    intro D hD
    obtain ⟨u0, u1, u2⟩ := hu D hD
    have gu := stepOn_three f0 f1 f2 D D D u0 u1 u2 c
    have gu2 := stepOn_three f0 f1 f2 D D D u0 u1 u2 (f2 (f1 (f0 (c, false)))).1
    refine ⟨gu.2.2.2.2 rfl rfl, ?_⟩
    rw [gu2.2.2.2.2 rfl rfl, gu.2.2.2.1]
    simp

theorem saveCount_saveConfig (s : State) : saveCount (saveConfig s) = saveCount s + 1 := by
  simp [saveCount, saveConfig, List.countP_append]

theorem syncSchedulesFromAPI_parsed (s : State) (p : SchedulePoll) (doc : JsonDoc)
    (hwifi : p.wifiConnected = true) (hcode : p.httpResponseCode > 0)
    (hbody : p.body = some doc) :
    syncSchedulesFromAPI s p =
      if (syncDocument s.config doc).2 = true then
        saveConfig { s with config := (syncDocument s.config doc).1 }
      else { s with config := (syncDocument s.config doc).1 } := by
  simp [syncSchedulesFromAPI, hwifi, hcode, hbody]

theorem syncSchedulesFromAPI_config (s : State) (p : SchedulePoll) (doc : JsonDoc)
    (hwifi : p.wifiConnected = true) (hcode : p.httpResponseCode > 0)
    (hbody : p.body = some doc) :
    (syncSchedulesFromAPI s p).config = (syncDocument s.config doc).1 := by
  rw [syncSchedulesFromAPI_parsed s p doc hwifi hcode hbody]
  split <;> rfl

theorem syncSchedulesFromAPI_saveCount (s : State) (p : SchedulePoll) (doc : JsonDoc)
    (hwifi : p.wifiConnected = true) (hcode : p.httpResponseCode > 0)
    (hbody : p.body = some doc) :
    saveCount (syncSchedulesFromAPI s p) =
      saveCount s + (if (syncDocument s.config doc).2 = true then 1 else 0) := by
  rw [syncSchedulesFromAPI_parsed s p doc hwifi hcode hbody]
  split
  · rw [saveCount_saveConfig]
    rfl
  · rfl

/-! ### Schedule sync: claims -/

theorem syncSchedulesFromAPI_cases (s : State) (p : SchedulePoll) :
    syncSchedulesFromAPI s p = s ∨
    ∃ doc, p.wifiConnected = true ∧ p.httpResponseCode > 0 ∧ p.body = some doc := by
  by_cases hwifi : p.wifiConnected = true
  · by_cases hcode : p.httpResponseCode > 0
    · rcases hb : p.body with _ | doc
      · left
        simp [syncSchedulesFromAPI, hwifi, hcode, hb]
      · right
        exact ⟨doc, hwifi, hcode, rfl⟩
    · left
      simp [syncSchedulesFromAPI, hwifi, hcode]
  · left
    simp [syncSchedulesFromAPI, hwifi]

/-- C10: for a successfully parsed answer, one sync pass writes the config at
most once, and it writes whenever the config after the pass differs from the
config before; a second pass over the same answer leaves the config as the
first pass left it. When the usable elements among the first three carry the
same duration, the pass writes exactly when the config changed, and a second
pass over the same answer changes nothing and writes nothing. -/
theorem sync_persists_at_most_once (s : State) (p : SchedulePoll) (doc : JsonDoc)
    (hwifi : p.wifiConnected = true) (hcode : p.httpResponseCode > 0)
    (hbody : p.body = some doc) :
    saveCount (syncSchedulesFromAPI s p) ≤ saveCount s + 1 ∧
    ((syncSchedulesFromAPI s p).config ≠ s.config →
      saveCount (syncSchedulesFromAPI s p) = saveCount s + 1) ∧
    (syncSchedulesFromAPI (syncSchedulesFromAPI s p) p).config
      = (syncSchedulesFromAPI s p).config ∧
    (∀ D, UniformDuration doc D →
      (saveCount (syncSchedulesFromAPI s p) = saveCount s + 1 ↔
        (syncSchedulesFromAPI s p).config ≠ s.config) ∧
      syncSchedulesFromAPI (syncSchedulesFromAPI s p) p = syncSchedulesFromAPI s p) := by
  have hc := syncSchedulesFromAPI_config s p doc hwifi hcode hbody
  have hs := syncSchedulesFromAPI_saveCount s p doc hwifi hcode hbody
  have hc2 := syncSchedulesFromAPI_config (syncSchedulesFromAPI s p) p doc hwifi hcode hbody
  have pr := syncDocument_props s.config doc
  refine ⟨?_, ?_, ?_, ?_⟩
  · rw [hs]
    split <;> omega
  · intro hne
    rw [hc] at hne
    rw [hs]
    cases hfl : (syncDocument s.config doc).2
    · exact absurd (pr.1 hfl) hne
    · simp
  · rw [hc2, hc]
    exact pr.2.2.2.1
  · intro D hD
    obtain ⟨hflag, hflag2⟩ := pr.2.2.2.2 D hD
    constructor
    · rw [hs, hc, hflag]
      by_cases hne : (syncDocument s.config doc).1 = s.config <;> simp [hne]
    · have e := syncSchedulesFromAPI_parsed (syncSchedulesFromAPI s p) p doc hwifi hcode hbody
      rw [hc, hflag2, pr.2.2.2.1] at e
      rw [e, ← hc]
      simp

/-- Instance of C10 at the boot state and the two-entry answer of the
specification: the first pass writes once, the second pass is the identity. -/
theorem sync_persists_at_most_once_witness :
    (scheduleAnswer specItems).wifiConnected = true ∧
    (scheduleAnswer specItems).httpResponseCode > 0 ∧
    UniformDuration (JsonDoc.array specItems) 1200 ∧
    saveCount (syncSchedulesFromAPI idleState (scheduleAnswer specItems))
      ≤ saveCount idleState + 1 ∧
    syncSchedulesFromAPI (syncSchedulesFromAPI idleState (scheduleAnswer specItems))
        (scheduleAnswer specItems)
      = syncSchedulesFromAPI idleState (scheduleAnswer specItems) :=
  have h := sync_persists_at_most_once idleState (scheduleAnswer specItems)
    (JsonDoc.array specItems) rfl (by decide) rfl
  have hu : UniformDuration (JsonDoc.array specItems) 1200 := by
    unfold UniformDuration
    decide
  ⟨rfl, by decide, hu, h.1, (h.2.2.2 1200 hu).2⟩

/-- C10, as stated, fails: after a first pass over two entries that repeat the
stored slots and carry 20 and 30 minutes, a second pass over the same answer
leaves the config unchanged and still writes it to the EEPROM. -/
theorem sync_writes_unchanged_config_counterexample :
    (syncSchedulesFromAPI
        (syncSchedulesFromAPI idleState (scheduleAnswer twoDurationItems))
        (scheduleAnswer twoDurationItems)).config
      = (syncSchedulesFromAPI idleState (scheduleAnswer twoDurationItems)).config ∧
    saveCount (syncSchedulesFromAPI
        (syncSchedulesFromAPI idleState (scheduleAnswer twoDurationItems))
        (scheduleAnswer twoDurationItems))
      = saveCount (syncSchedulesFromAPI idleState (scheduleAnswer twoDurationItems)) + 1 := by
  decide

theorem slotAfterSync_of_short (items : List ScheduleJson) (i : Fin 3) (x : Schedule)
    (d : ScheduleJson) (hd : items.get? i.val = some d) (h : (entryTime d).length < 5) :
    slotAfterSync items i x = x := by
  have h2 : ¬ (5 ≤ (entryTime d).length) := by omega
  unfold slotAfterSync
  rw [hd]
  simp only [h2, if_false]

theorem durationAfterSync_of_short (items : List ScheduleJson) (duration : Int)
    (h : ∀ d ∈ items.take 3, (entryTime d).length < 5) :
    durationAfterSync items duration = duration := by
  unfold durationAfterSync
  generalize items.take 3 = l at h
  induction l with
  | nil => rfl
  | cons a rest ih =>
    have ha : ¬ (5 ≤ (entryTime a).length) := by
      have := h a (by simp)
      omega
    simp only [List.foldl_cons, ha, if_false]
    exact ih (fun d hd => h d (List.mem_cons_of_mem a hd))

theorem configAfterSync_get (items : List ScheduleJson) (c : Config) (i : Fin 3) :
    (configAfterSync items c).schedules.get i = slotAfterSync items i (c.schedules.get i) := by
  rcases fin3_cases i with rfl | rfl | rfl <;> rfl

theorem foldl_last_usable (l : List ScheduleJson) (duration : Int) :
    l.foldl (fun acc d => if 5 ≤ (entryTime d).length then entryDuration d else acc) duration =
      match (l.filter (fun d => decide (5 ≤ (entryTime d).length))).getLast? with
      | some d => entryDuration d
      | none => duration := by
  induction l generalizing duration with
  | nil => rfl
  | cons a rest ih =>
    by_cases ha : 5 ≤ (entryTime a).length
    · simp only [List.foldl_cons, ha, if_true, List.filter_cons, decide_True]
      rw [ih]
      rcases hf : rest.filter (fun d => decide (5 ≤ (entryTime d).length)) with _ | ⟨b, tl⟩
      · rfl
      · rw [List.getLast?_cons_cons, List.getLast?_eq_getLast (b :: tl) (by simp)]
    · simp only [List.foldl_cons, ha, if_false, List.filter_cons, decide_False]
      rw [ih]
      rfl

/-- C6: a sync pass whose JSON fails to deserialise, or whose document is not
an array, returns the state unchanged (no mutation, no write). An element of
the array without a time string of at least 5 characters does not abort the
pass, it is skipped: the slot at its position keeps its hour, minute and
enabled flag. For a parsed array the pass still runs to its end: every
usable element among the first three overwrites the slot at its position
with the hour, minute and active flag read from it, every slot beyond the
array is disabled, the duration is the one of the last usable element among
the first three (unchanged when there is none), so the config is the closed
form of the pass; and when the config has changed it is written to the
EEPROM, once. The counter and the marker are never changed by a pass. -/
theorem sync_unparseable_or_skipped (s : State) (p : SchedulePoll) :
    (p.body = none → syncSchedulesFromAPI s p = s) ∧
    (p.body = some JsonDoc.other → syncSchedulesFromAPI s p = s) ∧
    (∀ items : List ScheduleJson, p.body = some (JsonDoc.array items) →
      (∀ (i : Fin 3) (d : ScheduleJson), items.get? i.val = some d →
        (entryTime d).length < 5 →
        (syncSchedulesFromAPI s p).config.schedules.get i = s.config.schedules.get i) ∧
      ((∀ d ∈ items.take 3, (entryTime d).length < 5) →
        (syncSchedulesFromAPI s p).config.duration = s.config.duration)) ∧
    (∀ items : List ScheduleJson, p.wifiConnected = true → p.httpResponseCode > 0 →
      p.body = some (JsonDoc.array items) →
      (syncSchedulesFromAPI s p).config = configAfterSync items s.config ∧
      (∀ (i : Fin 3) (d : ScheduleJson), items.get? i.val = some d →
        5 ≤ (entryTime d).length →
        (syncSchedulesFromAPI s p).config.schedules.get i = entrySlot d) ∧
      (∀ i : Fin 3, items.length ≤ i.val →
        (syncSchedulesFromAPI s p).config.schedules.get i
          = { (s.config.schedules.get i) with enabled := false }) ∧
      (syncSchedulesFromAPI s p).config.duration
        = (match ((items.take 3).filter
              (fun d => decide (5 ≤ (entryTime d).length))).getLast? with
           | some d => entryDuration d
           | none => s.config.duration) ∧
      ((syncSchedulesFromAPI s p).config ≠ s.config →
        saveCount (syncSchedulesFromAPI s p) = saveCount s + 1 ∧
        (syncSchedulesFromAPI s p).eeprom = (syncSchedulesFromAPI s p).config)) ∧
    (syncSchedulesFromAPI s p).config.wateringCount = s.config.wateringCount ∧
    (syncSchedulesFromAPI s p).config.magicNumber = s.config.magicNumber := by
  refine ⟨?_, ?_, ?_, ?_, ?_⟩
  · intro hb
    unfold syncSchedulesFromAPI
    split
    · rfl
    · split
      · simp [hb]
      · rfl
  · intro hb
    unfold syncSchedulesFromAPI
    split
    · rfl
    · split
      · simp [hb, syncDocument]
      · rfl
  · intro items hb
    rcases syncSchedulesFromAPI_cases s p with e | ⟨doc, hwifi, hcode, hdoc⟩
    · rw [e]
      exact ⟨fun _ _ _ _ => rfl, fun _ => rfl⟩
    · rw [syncSchedulesFromAPI_config s p _ hwifi hcode hb, syncDocument_fst_array]
      constructor
      · intro i d hd hshort
        rw [configAfterSync_get, slotAfterSync_of_short items i _ d hd hshort]
      · intro hall
        exact durationAfterSync_of_short items s.config.duration hall
  · intro items hwifi hcode hb
    have hc := syncSchedulesFromAPI_config s p _ hwifi hcode hb
    have hcf : (syncSchedulesFromAPI s p).config = configAfterSync items s.config := by
      rw [hc, syncDocument_fst_array]
    refine ⟨hcf, ?_, ?_, ?_, ?_⟩
    · intro i d hd h5
      rw [hcf, configAfterSync_get]
      unfold slotAfterSync
      rw [hd]
      simp only [h5, if_true]
    · intro i hi
      rw [hcf, configAfterSync_get]
      unfold slotAfterSync
      rw [List.get?_eq_none.2 hi]
    · rw [hcf]
      exact foldl_last_usable (items.take 3) s.config.duration
    · intro hne
      have pr := syncDocument_props s.config (JsonDoc.array items)
      have hflag : (syncDocument s.config (JsonDoc.array items)).2 = true := by
        cases hfl : (syncDocument s.config (JsonDoc.array items)).2
        · rw [hc] at hne
          exact absurd (pr.1 hfl) hne
        · rfl
      constructor
      · rw [syncSchedulesFromAPI_saveCount s p _ hwifi hcode hb, hflag]
        rfl
      · rw [syncSchedulesFromAPI_parsed s p _ hwifi hcode hb, hflag]
        rfl
  · rcases syncSchedulesFromAPI_cases s p with e | ⟨doc, hwifi, hcode, hdoc⟩
    · rw [e]
      exact ⟨rfl, rfl⟩
    · rw [syncSchedulesFromAPI_config s p doc hwifi hcode hdoc]
      exact ⟨(syncDocument_props s.config doc).2.1, (syncDocument_props s.config doc).2.2.1⟩

/-- Instance of C6 at the boot state: a deserialisation error leaves the state
as it was; for the answer whose first element has the four-character time
string "6:30" slot 0 is kept, slot 1 is overwritten with 07:15 enabled by
the second element, the duration becomes 1200 and the config is written
once. -/
theorem sync_unparseable_or_skipped_witness :
    syncSchedulesFromAPI idleState
        { wifiConnected := true, httpResponseCode := 200, body := none } = idleState ∧
    (syncSchedulesFromAPI idleState (scheduleAnswer shortTimeItems)).config.schedules.get 0
      = idleState.config.schedules.get 0 ∧
    (syncSchedulesFromAPI idleState (scheduleAnswer shortTimeItems)).config.schedules.get 1
      = { hour := 7, minute := 15, enabled := true } ∧
    (syncSchedulesFromAPI idleState (scheduleAnswer shortTimeItems)).config.schedules.get 2
      = { hour := 12, minute := 0, enabled := false } ∧
    (syncSchedulesFromAPI idleState (scheduleAnswer shortTimeItems)).config.duration = 1200 ∧
    saveCount (syncSchedulesFromAPI idleState (scheduleAnswer shortTimeItems))
      = saveCount idleState + 1 ∧
    (syncSchedulesFromAPI idleState (scheduleAnswer shortTimeItems)).eeprom
      = (syncSchedulesFromAPI idleState (scheduleAnswer shortTimeItems)).config :=
  have h := (sync_unparseable_or_skipped idleState (scheduleAnswer shortTimeItems)).2.2.2.1
    shortTimeItems rfl (by decide) rfl
  ⟨(sync_unparseable_or_skipped idleState
      { wifiConnected := true, httpResponseCode := 200, body := none }).1 rfl,
   ((sync_unparseable_or_skipped idleState (scheduleAnswer shortTimeItems)).2.2.1
      shortTimeItems rfl).1 0 (entry "6:30" 1 20) rfl (by decide),
   h.2.1 1 (entry "07:15" 1 20) rfl (by decide),
   h.2.2.1 2 (by decide),
   h.2.2.2.1,
   (h.2.2.2.2 (by decide)).1,
   (h.2.2.2.2 (by decide)).2⟩

/-- C6, as stated, fails: an element with a time string shorter than 5
characters, or with no time string at all, does not abort the pass. From the
default config the answer whose first element has the time "6:30" still
overwrites slot 1 with 07:15, sets the duration to 1200 and writes the
config; the answer made of one element without members disables slot 1 and
writes the config. -/
theorem sync_short_time_does_not_abort_counterexample :
    (syncSchedulesFromAPI idleState (scheduleAnswer shortTimeItems)).config ≠ idleState.config ∧
    (syncSchedulesFromAPI idleState (scheduleAnswer shortTimeItems)).config.schedules.get 1
      = { hour := 7, minute := 15, enabled := true } ∧
    (syncSchedulesFromAPI idleState (scheduleAnswer shortTimeItems)).config.duration = 1200 ∧
    saveCount (syncSchedulesFromAPI idleState (scheduleAnswer shortTimeItems))
      = saveCount idleState + 1 ∧
    (syncSchedulesFromAPI idleState (scheduleAnswer noTimeItems)).config ≠ idleState.config ∧
    ((syncSchedulesFromAPI idleState (scheduleAnswer noTimeItems)).config.schedules.get 1).enabled
      = false ∧
    (idleState.config.schedules.get 1).enabled = true ∧
    saveCount (syncSchedulesFromAPI idleState (scheduleAnswer noTimeItems))
      = saveCount idleState + 1 := by
  decide

theorem toInt32_of_range (x : Int) (h0 : -2147483648 ≤ x) (h1 : x ≤ 2147483647) :
    toInt32 x = x := by
  unfold toInt32
  omega

/-- On a string that is well formed in the sense of the specification, the
bytes are at least five and the arithmetic of the loop body gives HH and MM. -/
theorem specHHMM_sound (t : CStr) (hm : Nat × Nat) (h : specHHMM t = some hm) :
    5 ≤ t.length ∧
    (t.at 0 - 48) * 10 + (t.at 1 - 48) = (hm.1 : Int) ∧
    (t.at 3 - 48) * 10 + (t.at 4 - 48) = (hm.2 : Int) := by
  rcases t with _ | ⟨d0, _ | ⟨d1, _ | ⟨x, _ | ⟨d3, _ | ⟨d4, rest⟩⟩⟩⟩⟩
  · simp [specHHMM] at h
  · simp [specHHMM] at h
  · simp [specHHMM] at h
  · simp [specHHMM] at h
  · simp [specHHMM] at h
  · simp only [specHHMM] at h
    split at h
    · next hd =>
      simp only [isDigit, Bool.and_eq_true, decide_eq_true_eq] at hd
      have e := Option.some.inj h
      subst e
      simp only [CStr.at, List.getD_cons_zero, List.getD_cons_succ, List.length_cons]
      refine ⟨by omega, ?_, ?_⟩ <;> omega
    · exact Option.noConfusion h

theorem durationAfterSync_of_usable (items : List ScheduleJson) (duration : Int)
    (hn : items.length ≤ 3) (h : ∀ d ∈ items, 5 ≤ (entryTime d).length) :
    durationAfterSync items duration =
      match items.getLast? with
      | some d => entryDuration d
      | none => duration := by
  unfold durationAfterSync
  rw [List.take_of_length_le hn]
  clear hn
  induction items generalizing duration with
  | nil => rfl
  | cons a rest ih =>
    have ha := h a (by simp)
    simp only [List.foldl_cons, ha, if_true]
    rw [ih _ (fun d hd => h d (List.mem_cons_of_mem a hd))]
    cases rest with
    | nil => rfl
    | cons b rest2 =>
      rw [List.getLast?_cons_cons, List.getLast?_eq_getLast (b :: rest2) (by simp)]

/-- C5: for a parsed array of at most three elements whose time strings are
well formed (two digits, a separator, two digits) and whose minutes times 60
fit in a 32-bit int, after one sync pass slot i below the length holds the
HH, MM and active flag of element i, each slot from the length on keeps its
hour and minute and is disabled, the duration is 60 times the minutes of the
last element (unchanged for the empty array), the counter and the marker are
unchanged, and the config is written at most once. -/
theorem sync_wellformed_result (s : State) (p : SchedulePoll) (items : List ScheduleJson)
    (hwifi : p.wifiConnected = true) (hcode : p.httpResponseCode > 0)
    (hbody : p.body = some (JsonDoc.array items))
    (hn : items.length ≤ 3)
    (hwf : ∀ d ∈ items, (d.schedule_time.bind specHHMM).isSome = true)
    (hrange : ∀ d ∈ items, -2147483648 ≤ d.duration_minutes.getD 30 * 60 ∧
      d.duration_minutes.getD 30 * 60 ≤ 2147483647) :
    (∀ (i : Fin 3) (d : ScheduleJson) (hm : Nat × Nat), items.get? i.val = some d →
      d.schedule_time.bind specHHMM = some hm →
      (syncSchedulesFromAPI s p).config.schedules.get i
        = { hour := hm.1, minute := hm.2, enabled := decide (d.is_active.getD 0 = 1) }) ∧
    (∀ i : Fin 3, items.length ≤ i.val →
      (syncSchedulesFromAPI s p).config.schedules.get i
        = { (s.config.schedules.get i) with enabled := false }) ∧
    (syncSchedulesFromAPI s p).config.duration
      = (match items.getLast? with
         | some d => d.duration_minutes.getD 30 * 60
         | none => s.config.duration) ∧
    (syncSchedulesFromAPI s p).config.wateringCount = s.config.wateringCount ∧
    (syncSchedulesFromAPI s p).config.magicNumber = s.config.magicNumber ∧
    saveCount (syncSchedulesFromAPI s p) ≤ saveCount s + 1 := by
  have hc := syncSchedulesFromAPI_config s p _ hwifi hcode hbody
  have pr := syncDocument_props s.config (JsonDoc.array items)
  have husable : ∀ d ∈ items, 5 ≤ (entryTime d).length := by
    intro d hd
    have h1 := hwf d hd
    rcases ht : d.schedule_time with _ | t
    · rw [ht] at h1
      exact absurd h1 (by simp)
    · rw [ht] at h1
      rcases hs : specHHMM t with _ | hm
      · simp [hs] at h1
      · simp only [entryTime, ht, Option.getD_some]
        exact (specHHMM_sound t hm hs).1
  refine ⟨?_, ?_, ?_, ?_, ?_, ?_⟩
  · intro i d hm hd hspec
    rcases ht : d.schedule_time with _ | t
    · rw [ht] at hspec
      exact absurd hspec (by simp)
    · rw [ht] at hspec
      have hs : specHHMM t = some hm := by simpa using hspec
      obtain ⟨h5, hh, hmin⟩ := specHHMM_sound t hm hs
      have het : entryTime d = t := by simp [entryTime, ht]
      rw [hc, syncDocument_fst_array, configAfterSync_get]
      unfold slotAfterSync
      rw [hd]
      simp only [het, h5, if_true, entrySlot, hh, hmin]
  · intro i hi
    rw [hc, syncDocument_fst_array, configAfterSync_get]
    unfold slotAfterSync
    rw [List.get?_eq_none.2 hi]
  · rw [hc, syncDocument_fst_array]
    simp only [configAfterSync]
    rw [durationAfterSync_of_usable items _ hn husable]
    rcases hl : items.getLast? with _ | d
    · rfl
    · have hmem : d ∈ items := List.mem_of_getLast?_eq_some hl
      simp only [entryDuration]
      exact toInt32_of_range _ (hrange d hmem).1 (hrange d hmem).2
  · rw [hc]
    exact pr.2.1
  · rw [hc]
    exact pr.2.2.1
  · rw [syncSchedulesFromAPI_saveCount s p _ hwifi hcode hbody]
    split <;> omega

/-- Instance of C5 at the boot state (default config) and the two-entry
response of the specification: slot 0 becomes 06:30 enabled, slot 1 becomes
18:00 disabled, slot 2 keeps 12:00 and is disabled, the duration becomes
1200 seconds and the config is written once. -/
theorem sync_wellformed_result_witness :
    specItems.length ≤ 3 ∧
    (∀ d ∈ specItems, (d.schedule_time.bind specHHMM).isSome = true) ∧
    (∀ d ∈ specItems, -2147483648 ≤ d.duration_minutes.getD 30 * 60 ∧
      d.duration_minutes.getD 30 * 60 ≤ 2147483647) ∧
    (syncSchedulesFromAPI idleState (scheduleAnswer specItems)).config.schedules.get 0
      = { hour := 6, minute := 30, enabled := true } ∧
    (syncSchedulesFromAPI idleState (scheduleAnswer specItems)).config.schedules.get 1
      = { hour := 18, minute := 0, enabled := false } ∧
    (syncSchedulesFromAPI idleState (scheduleAnswer specItems)).config.schedules.get 2
      = { hour := 12, minute := 0, enabled := false } ∧
    (syncSchedulesFromAPI idleState (scheduleAnswer specItems)).config.duration = 1200 ∧
    saveCount (syncSchedulesFromAPI idleState (scheduleAnswer specItems))
      = saveCount idleState + 1 :=
  have h := sync_wellformed_result idleState (scheduleAnswer specItems) specItems rfl
    (by decide) rfl (by decide) (by decide) (by decide)
  ⟨by decide, by decide, by decide,
   h.1 0 (entry "06:30" 1 20) (6, 30) rfl (by decide),
   h.1 1 (entry "18:00" 0 20) (18, 0) rfl (by decide),
   h.2.1 2 (by decide),
   h.2.2.1,
   by decide⟩

/-- C5, as stated, fails for the duration: for a well-formed single entry with
35791395 minutes the product 2147483700 does not fit in the 32-bit int
`config.duration`; the stored duration is the wrapped value -2147483596. -/
theorem sync_duration_overflow_counterexample :
    hugeDurationItems.length ≤ 3 ∧
    (∀ d ∈ hugeDurationItems, (d.schedule_time.bind specHHMM).isSome = true) ∧
    (syncSchedulesFromAPI idleState (scheduleAnswer hugeDurationItems)).config.duration
      = -2147483596 ∧
    (syncSchedulesFromAPI idleState (scheduleAnswer hugeDurationItems)).config.duration
      ≠ 60 * 35791395 := by
  decide

/-! ### Schedule sync: range of the slots -/

theorem ConfigInRange_iff (c : Config) :
    ConfigInRange c ↔ ∀ i : Fin 3, ScheduleInRange (c.schedules.get i) := by
  constructor
  · intro h i
    rcases fin3_cases i with rfl | rfl | rfl
    · exact h.1
    · exact h.2.1
    · exact h.2.2
  · intro h
    exact ⟨h 0, h 1, h 2⟩

theorem slotAfterSync_inRange (items : List ScheduleJson) (i : Fin 3) (x : Schedule)
    (hx : ScheduleInRange x)
    (hitems : ∀ d ∈ items.take 3, 5 ≤ (entryTime d).length → ScheduleInRange (entrySlot d)) :
    ScheduleInRange (slotAfterSync items i x) := by
  unfold slotAfterSync
  rcases hd : items.get? i.val with _ | d
  · exact hx
  · have hmem : d ∈ items.take 3 := by
      apply List.getElem?_mem (n := i.val)
      rw [List.getElem?_take_of_lt i.isLt, ← List.get?_eq_getElem?]
      exact hd
    simp only
    split
    · next h5 => exact hitems d hmem h5
    · exact hx

/-- A time string that is well formed in the words of the specification with
HH at most 23 and MM at most 59 gives a slot in range. -/
theorem entrySlot_inRange_of_spec (d : ScheduleJson) (hm : Nat × Nat)
    (h : specHHMM (entryTime d) = some hm) (hh : hm.1 ≤ 23) (hmin : hm.2 ≤ 59) :
    ScheduleInRange (entrySlot d) := by
  obtain ⟨_, e1, e2⟩ := specHHMM_sound (entryTime d) hm h
  unfold ScheduleInRange entrySlot
  simp only [e1, e2]
  omega

/-- C11: the range of the slots (hour in 0..23, minute in 0..59) is preserved
by a sync pass, whatever the network delivers, provided every element among
the first three of the array whose time string has 5 or more bytes yields an
hour in 0..23 and a minute in 0..59 by the arithmetic of the loop body; this
is the case for a well-formed "HH:MM" with HH at most 23 and MM at most 59. -/
theorem sync_preserves_range (s : State) (p : SchedulePoll)
    (hbefore : ConfigInRange s.config)
    (hitems : ∀ items, p.body = some (JsonDoc.array items) →
      ∀ d ∈ items.take 3, 5 ≤ (entryTime d).length → ScheduleInRange (entrySlot d)) :
    ConfigInRange (syncSchedulesFromAPI s p).config := by
  rcases syncSchedulesFromAPI_cases s p with e | ⟨doc, hwifi, hcode, hdoc⟩
  · rw [e]
    exact hbefore
  · rw [syncSchedulesFromAPI_config s p doc hwifi hcode hdoc]
    cases doc with
    | other => exact hbefore
    | array items =>
      rw [syncDocument_fst_array, ConfigInRange_iff]
      intro i
      rw [configAfterSync_get]
      exact slotAfterSync_inRange items i _ ((ConfigInRange_iff _).1 hbefore i)
        (hitems items hdoc)

/-- Instance of C11 at the boot state and the two-entry response of the
specification. -/
theorem sync_preserves_range_witness :
    ConfigInRange idleState.config ∧
    (∀ d ∈ specItems.take 3, 5 ≤ (entryTime d).length → ScheduleInRange (entrySlot d)) ∧
    ConfigInRange (syncSchedulesFromAPI idleState (scheduleAnswer specItems)).config :=
  ⟨by decide, by decide,
   sync_preserves_range idleState (scheduleAnswer specItems) (by decide)
     (fun items h => by
       have e : items = specItems := by
         have h2 := Option.some.inj h
         exact (JsonDoc.array.inj h2).symm
       rw [e]
       decide)⟩

/-- C11, as stated, fails: from the default config, whose slots are in range,
a pass over one element with the five-character time string "99:99" stores
hour 99 and minute 99 in slot 0. -/
theorem sync_out_of_range_counterexample :
    ConfigInRange idleState.config ∧
    (∀ d ∈ outOfRangeItems, 5 ≤ (entryTime d).length) ∧
    (syncSchedulesFromAPI idleState (scheduleAnswer outOfRangeItems)).config.schedules.get 0
      = { hour := 99, minute := 99, enabled := true } ∧
    ¬ ConfigInRange (syncSchedulesFromAPI idleState (scheduleAnswer outOfRangeItems)).config := by
  decide

/-! ### Schedule matcher: the edge detector -/

theorem checkScheduleSlot_last_same (now : DateTime) (m : Nat) (s : State) (i : Fin 3)
    (hen : (s.config.schedules.get i).enabled = true) :
    (checkScheduleSlot now m s i).lastScheduleCheck.get i =
      (decide ((now.hour : Int) = (s.config.schedules.get i).hour) &&
       decide ((now.minute : Int) = (s.config.schedules.get i).minute) &&
       decide (now.second = 0)) := by
  simp only [checkScheduleSlot]
  split_ifs with h1 h2
  · simp [hen] at h1
  · simp [Arr3.get_set_same]
  · simp [Arr3.get_set_same]

theorem checkScheduleLoop_last (now : DateTime) (m : Nat) (s : State) (i : Fin 3)
    (hen : (s.config.schedules.get i).enabled = true) :
    (checkScheduleLoop s now m).lastScheduleCheck.get i =
      (decide ((now.hour : Int) = (s.config.schedules.get i).hour) &&
       decide ((now.minute : Int) = (s.config.schedules.get i).minute) &&
       decide (now.second = 0)) := by
  unfold checkScheduleLoop
  have c0 := checkScheduleSlot_schedules now m s 0
  have c1 := checkScheduleSlot_schedules now m (checkScheduleSlot now m s 0) 1
  rcases fin3_cases i with rfl | rfl | rfl
  · rw [checkScheduleSlot_last_of_ne now m _ 0 2 (by decide),
      checkScheduleSlot_last_of_ne now m _ 0 1 (by decide)]
    exact checkScheduleSlot_last_same now m s 0 hen
  · rw [checkScheduleSlot_last_of_ne now m _ 1 2 (by decide),
      checkScheduleSlot_last_same now m _ 1 (by rw [c0]; exact hen), c0]
  · rw [checkScheduleSlot_last_same now m _ 2 (by rw [c1, c0]; exact hen), c1, c0]

/-- C13: when checkSchedule is entered with no session active (manualMode and
isWatering both false), after the evaluation lastScheduleCheck[i] of every
enabled slot i equals this tick's match value, whether or not the slot
fired, so it is false whenever the clock reading has a second other than 0.
When a manual or a watering session is active at entry, the evaluation
returns at once and leaves the state, lastScheduleCheck included, as it
was. -/
theorem edge_detector_updated_when_idle (s : State) (i : Fin 3) (now : DateTime)
    (millis : Nat) :
    (s.manualMode = false → s.isWatering = false →
      (s.config.schedules.get i).enabled = true →
      (checkSchedule s now millis).lastScheduleCheck.get i =
        (decide ((now.hour : Int) = (s.config.schedules.get i).hour) &&
         decide ((now.minute : Int) = (s.config.schedules.get i).minute) &&
         decide (now.second = 0)) ∧
      (now.second ≠ 0 → (checkSchedule s now millis).lastScheduleCheck.get i = false)) ∧
    ((s.manualMode = true ∨ s.isWatering = true) → checkSchedule s now millis = s) := by
  constructor
  · intro hm hw hen
    have e : checkSchedule s now millis = checkScheduleLoop s now millis := by
      simp [checkSchedule, hm, hw]
    have h := checkScheduleLoop_last now millis s i hen
    rw [← e] at h
    refine ⟨h, ?_⟩
    intro hsec
    rw [h]
    simp [hsec]
  · intro h
    have hret : (s.manualMode || s.isWatering) = true := by
      rcases h with h | h <;> simp [h]
    simp [checkSchedule, hret]

/-- Instance of C13: from the boot state slot 0 is evaluated at 06:00:01 and
its edge detector is false afterwards; in the session opened by slot 0 the
evaluation returns the state unchanged. -/
theorem edge_detector_updated_when_idle_witness :
    idleState.manualMode = false ∧ idleState.isWatering = false ∧
    (idleState.config.schedules.get 0).enabled = true ∧
    sixOClockOne.second ≠ 0 ∧
    (checkSchedule idleState sixOClockOne 1000).lastScheduleCheck.get 0 = false ∧
    scheduledSessionState.isWatering = true ∧
    checkSchedule scheduledSessionState sixOClockOne 2000 = scheduledSessionState :=
  ⟨by decide, by decide, by decide, by decide,
   ((edge_detector_updated_when_idle idleState 0 sixOClockOne 1000).1
      (by decide) (by decide) (by decide)).2 (by decide),
   by decide,
   (edge_detector_updated_when_idle scheduledSessionState 0 sixOClockOne 2000).2
      (Or.inr (by decide))⟩

/-- C13, as stated, fails: in the session opened by slot 0 at 06:00:00 the
edge detector of slot 0 is true; an evaluation at 06:00:01, whose match value
for slot 0 is false, returns early and leaves it true. -/
theorem edge_detector_stale_during_session_counterexample :
    (scheduledSessionState.config.schedules.get 0).enabled = true ∧
    scheduledSessionState.isWatering = true ∧
    sixOClockOne.second ≠ 0 ∧
    (decide ((sixOClockOne.hour : Int) = (scheduledSessionState.config.schedules.get 0).hour) &&
     decide ((sixOClockOne.minute : Int) = (scheduledSessionState.config.schedules.get 0).minute) &&
     decide (sixOClockOne.second = 0)) = false ∧
    (checkSchedule scheduledSessionState sixOClockOne 2000).lastScheduleCheck.get 0 = true := by
  decide

/-! ### Schedule matcher: the lifetime counter -/

theorem checkScheduleSlot_count (now : DateTime) (m : Nat) (s : State) (j : Fin 3) :
    ((checkScheduleSlot now m s j).config.wateringCount = s.config.wateringCount ∧
      firingsTotal (checkScheduleSlot now m s j) = firingsTotal s) ∨
    ((checkScheduleSlot now m s j).config.wateringCount = toInt32 (s.config.wateringCount + 1) ∧
      firingsTotal (checkScheduleSlot now m s j) = firingsTotal s + 1) := by
  have h0 := openValve_firedCount s m 0
  have h1 := openValve_firedCount s m 1
  have h2 := openValve_firedCount s m 2
  simp only [firedCount] at h0 h1 h2
  simp only [checkScheduleSlot, firingsTotal, firedCount]
  split_ifs
  · left
    exact ⟨rfl, rfl⟩
  · right
    refine ⟨by simp [saveConfig, openValve_config], ?_⟩
    rcases fin3_cases j with rfl | rfl | rfl <;>
      simp [saveConfig, List.count_append, List.count_cons, h0, h1, h2] <;> omega
  · left
    exact ⟨rfl, rfl⟩

/-- As long as the counter does not leave the range of int, one evaluation of
checkSchedule raises wateringCount by the number of slots that fire in it. -/
theorem checkSchedule_count_eq_firings (s : State) (now : DateTime) (millis : Nat)
    (hlo : -2147483648 ≤ s.config.wateringCount)
    (hhi : s.config.wateringCount + 3 ≤ 2147483647) :
    (checkSchedule s now millis).config.wateringCount + (firingsTotal s : Int)
      = s.config.wateringCount + (firingsTotal (checkSchedule s now millis) : Int) := by
  unfold checkSchedule
  split
  · rfl
  · unfold checkScheduleLoop
    have a := checkScheduleSlot_count now millis s 0
    have b := checkScheduleSlot_count now millis (checkScheduleSlot now millis s 0) 1
    have c := checkScheduleSlot_count now millis
      (checkScheduleSlot now millis (checkScheduleSlot now millis s 0) 1) 2
    unfold toInt32 at a b c
    omega

/-- C12: with slots 0 and 1 both set to 06:00 and enabled (the config left by
a sync pass over two such entries) and no session active, one evaluation of
checkSchedule at 06:00:00 fires both slots: it opens one session (one write
that drives the relay high) and raises wateringCount from 0 to 2, saving the
config twice; slot 1 fires and is counted although slot 0 has already set
isWatering in the same evaluation. -/
theorem duplicate_slots_counted_twice :
    duplicateSlotsState.manualMode = false ∧
    duplicateSlotsState.isWatering = false ∧
    duplicateSlotsState.config.schedules.get 0 = { hour := 6, minute := 0, enabled := true } ∧
    duplicateSlotsState.config.schedules.get 1 = { hour := 6, minute := 0, enabled := true } ∧
    duplicateSlotsState.config.wateringCount = 0 ∧
    (checkSchedule duplicateSlotsState sixOClock 1000).config.wateringCount = 2 ∧
    openedCount (checkSchedule duplicateSlotsState sixOClock 1000)
      = openedCount duplicateSlotsState + 1 ∧
    firedCount (checkSchedule duplicateSlotsState sixOClock 1000) 0 = 1 ∧
    firedCount (checkSchedule duplicateSlotsState sixOClock 1000) 1 = 1 ∧
    (checkScheduleSlot sixOClock 1000 duplicateSlotsState 0).isWatering = true ∧
    saveCount (checkSchedule duplicateSlotsState sixOClock 1000)
      = saveCount duplicateSlotsState + 2 := by
  decide

end SmartWatering
